import Mathlib

/-!
# Hackflight: the control-loop orchestrator and its arming/failsafe state machine

A shallow embedding of `src/src/hackflight.hpp` (class `hf::Hackflight`).

Modelling conventions

* `float` values are exact rationals (`ℚ`); `fabs` is the absolute value.
* The collaborators behind the pointers `_board`, `_receiver`, `_stabilizer`,
  `_hover`, `_mixer` and the member `_msp` are declared in headers that are not
  part of the sources at hand.  Every call the orchestrator makes to one of them
  is recorded, in program order, as an `Event`.  What a call answers is either
  an input of the cycle (`Inputs`: the polls of the board, the result of
  `Receiver::getDemands`, the answer of `Receiver::lostSignal`) or is computed
  by a function of `Collaborators` (the stabilizer and the hover controller,
  each threaded with a state of its own, of an arbitrary type).
* `Receiver` is the readable state of the receiver object: the stored demands
  and the answers of its queries `throttleIsDown`, `arming`, `disarming`,
  `inHoverMode`.  It is replaced when `getDemands` reports fresh demands and
  carries over otherwise.
* The collaborators do not write the private members `_state`, `_failsafe`,
  `_yawInitial` of the orchestrator.
* The two `while` loops of `doSerialComms` run over the bytes pending when the
  relay starts (`serialAvailableBytes` and `availableBytes` are `uint8_t` counts),
  given as finite lists.
* Every function of the orchestrator returns the new orchestrator together with
  the calls it made.
-/

namespace hf

/-- Index of an Euler angle in `eulerAngles` (`AXIS_ROLL`, `AXIS_PITCH`, `AXIS_YAW`). -/
inductive Axis where
  | AXIS_ROLL
  | AXIS_PITCH
  | AXIS_YAW
  deriving DecidableEq

/-- A `float[3]` sensor sample (gyrometer rates, accelerometer Gs). -/
structure Vec3 where
  x : ℚ
  y : ℚ
  z : ℚ

/-- A `float q[4]` orientation sample. -/
structure Quaternion where
  w : ℚ
  x : ℚ
  y : ℚ
  z : ℚ

/-- The demand vector `demands_t`: roll, pitch, yaw, throttle, auxiliary. -/
structure demands_t where
  roll : ℚ
  pitch : ℚ
  yaw : ℚ
  throttle : ℚ
  aux : ℚ

/-- Readable state of the receiver object: `_receiver->demands` and the answers of
`throttleIsDown()`, `arming()`, `disarming()`, `inHoverMode()`. -/
structure Receiver where
  demands : demands_t
  throttleIsDown : Bool
  arming : Bool
  disarming : Bool
  inHoverMode : Bool

/-- Vehicle state (`State _state`): Euler angles, angular rates, altitude estimate,
acceleration and the arming flag. -/
structure State where
  eulerAngles : Axis → ℚ
  angularRates : Vec3
  altitude : ℚ
  accel : Vec3
  armed : Bool

/-- Calls made by the orchestrator, in program order. -/
inductive Event where
  | stateUpdateGyrometer (gyroRates : Vec3)
  | stabilizerModifyDemands (gyroRates : Vec3) (demands : demands_t)
  | hoverModifyDemands (demands : demands_t)
  | debugPrintf (throttle : ℚ)
  | mixerCutMotors
  | mixerRunArmed (demands : demands_t)
  | mixerRunDisarmed
  | boardShowArmedStatus (armed : Bool)
  | stateUpdateQuaternion (q : Quaternion)
  | stabilizerUpdateEulerAngles (eulerAngles : Axis → ℚ)
  | mspUpdate (byte : Nat)
  | boardSerialWriteByte (byte : Nat)
  | receiverGetDemands (yawAngle : ℚ)
  | stabilizerUpdateDemands (demands : demands_t)
  | stabilizerResetIntegral
  | stateUpdateAccelerometer (accelGs : Vec3)
  | stateUpdateBarometer (pressure : ℚ)

/-- The event is a call to the mixer (`runArmed`, `runDisarmed`, `cutMotors`). -/
def Event.isMixer : Event → Bool
  | .mixerCutMotors => true
  | .mixerRunArmed _ => true
  | .mixerRunDisarmed => true
  | _ => false

/-- The event is `Mixer::cutMotors()`. -/
def Event.isCutMotors : Event → Bool
  | .mixerCutMotors => true
  | _ => false

/-- The event is `Mixer::runArmed(demands)`. -/
def Event.isRunArmed : Event → Bool
  | .mixerRunArmed _ => true
  | _ => false

/-- The event is `Mixer::runDisarmed()`. -/
def Event.isRunDisarmed : Event → Bool
  | .mixerRunDisarmed => true
  | _ => false

/-- The event is `Board::showArmedStatus(armed)`. -/
def Event.isShowArmedStatus : Event → Bool
  | .boardShowArmedStatus _ => true
  | _ => false

/-- The event is `Receiver::getDemands(yawAngle)`. -/
def Event.isGetDemands : Event → Bool
  | .receiverGetDemands _ => true
  | _ => false

/-- The event is `State::updateGyrometer`. -/
def Event.isUpdateGyrometer : Event → Bool
  | .stateUpdateGyrometer _ => true
  | _ => false

/-- The event is `State::updateQuaternion`. -/
def Event.isUpdateQuaternion : Event → Bool
  | .stateUpdateQuaternion _ => true
  | _ => false

/-- The event is `State::updateBarometer`. -/
def Event.isUpdateBarometer : Event → Bool
  | .stateUpdateBarometer _ => true
  | _ => false

/-- The event is `State::updateAccelerometer`. -/
def Event.isUpdateAccelerometer : Event → Bool
  | .stateUpdateAccelerometer _ => true
  | _ => false

/-- The collaborators' computations, for a stabilizer state `S` and a hover
controller state `H`: the configured `maxArmingAngle`, the conversions used by the
vehicle state, and the stabilizer's and hover controller's methods. -/
structure Collaborators (S H : Type) where
  maxArmingAngle : ℚ
  computeEulerAngles : Quaternion → Axis → ℚ
  pressureToAltitude : ℚ → ℚ
  stabilizerUpdateEulerAngles : S → (Axis → ℚ) → S
  stabilizerUpdateDemands : S → demands_t → S
  stabilizerResetIntegral : S → S
  stabilizerModifyDemands : S → Vec3 → demands_t → S × demands_t
  hoverModifyDemands : H → State → demands_t → H × demands_t

/-- What the board and the receiver answer during one cycle: each poll is `some`
sample when fresh data is available; `serialBytes` are the bytes pending on the
serial line and `mspBytes` the bytes the protocol handler then has queued;
`getDemands` is `some` receiver state when `Receiver::getDemands` returns true;
`lostSignal` is the answer of `Receiver::lostSignal()`. -/
structure Inputs where
  gyrometer : Option Vec3
  lostSignal : Bool
  quaternion : Option Quaternion
  serialBytes : List Nat
  mspBytes : List Nat
  getDemands : Option Receiver
  accelerometer : Option Vec3
  barometer : Option ℚ

/-- Modelled from the spec: `State::updateGyrometer` (state.hpp is not among the
sources); the angular rates are the last gyrometer sample. -/
def State.updateGyrometer (s : State) (gyroRates : Vec3) : State :=
  { s with angularRates := gyroRates }

/-- Modelled from the spec: `State::updateQuaternion` (state.hpp is not among the
sources); the Euler angles are derived from the latest orientation sample. -/
def State.updateQuaternion {S H : Type} (c : Collaborators S H) (s : State)
    (q : Quaternion) : State :=
  { s with eulerAngles := c.computeEulerAngles q }

/-- Modelled from the spec: `State::updateBarometer` (state.hpp is not among the
sources); the altitude estimate is derived from the pressure sample. -/
def State.updateBarometer {S H : Type} (c : Collaborators S H) (s : State)
    (pressure : ℚ) : State :=
  { s with altitude := c.pressureToAltitude pressure }

/-- Modelled from the spec: `State::updateAccelerometer` (state.hpp is not among the
sources); the acceleration is the last accelerometer sample. -/
def State.updateAccelerometer (s : State) (accelGs : Vec3) : State :=
  { s with accel := accelGs }

/-- The orchestrator `class Hackflight`: the objects behind `_receiver`,
`_stabilizer`, `_hover` (`none` when NULL), and the members `_state`, `_failsafe`,
`_yawInitial`. -/
structure Hackflight (S H : Type) where
  receiver : Receiver
  stabilizer : S
  hover : Option H
  state : State
  failsafe : Bool
  yawInitial : ℚ

variable {S H : Type}

/-- `Hackflight::safeAngle`: `fabs(_state.eulerAngles[axis]) < _stabilizer->maxArmingAngle`. -/
def Hackflight.safeAngle (c : Collaborators S H) (h : Hackflight S H) (axis : Axis) : Bool :=
  decide (|h.state.eulerAngles axis| < c.maxArmingAngle)

/-- `Hackflight::checkFailsafe`. -/
def Hackflight.checkFailsafe (inp : Inputs) (h : Hackflight S H) :
    Hackflight S H × List Event :=
  if h.state.armed && inp.lostSignal then
    ({ h with state := { h.state with armed := false }, failsafe := true },
      [Event.mixerCutMotors, Event.boardShowArmedStatus false])
  else
    (h, [])

/-- Lines 96-99 of `checkGyroRates`: run the hover controller if one is configured
and the receiver is in hover mode. -/
def Hackflight.runHover (c : Collaborators S H) (h : Hackflight S H) (demands : demands_t) :
    Hackflight S H × demands_t × List Event :=
  match h.hover with
  | some hov =>
    if h.receiver.inHoverMode then
      ({ h with hover := some (c.hoverModifyDemands hov h.state demands).1 },
        (c.hoverModifyDemands hov h.state demands).2,
        [Event.hoverModifyDemands demands])
    else
      (h, demands, [])
  | none => (h, demands, [])

/-- Lines 106-109 of `checkGyroRates`: use the updated demands to run the motors. -/
def Hackflight.runMotors (h : Hackflight S H) (demands : demands_t) : List Event :=
  if h.state.armed && !h.failsafe && !h.receiver.throttleIsDown then
    [Event.mixerRunArmed demands]
  else
    []

/-- `Hackflight::checkGyroRates`. -/
def Hackflight.checkGyroRates (c : Collaborators S H) (inp : Inputs) (h : Hackflight S H) :
    Hackflight S H × List Event :=
  match inp.gyrometer with
  | none => (h, [])
  | some gyroRates =>
    let h1 : Hackflight S H := { h with state := h.state.updateGyrometer gyroRates }
    let sm := c.stabilizerModifyDemands h1.stabilizer gyroRates h1.receiver.demands
    let h2 : Hackflight S H := { h1 with stabilizer := sm.1 }
    let hv := h2.runHover c sm.2
    let fs := hv.1.checkFailsafe inp
    (fs.1,
      [Event.stateUpdateGyrometer gyroRates,
        Event.stabilizerModifyDemands gyroRates h1.receiver.demands]
      ++ hv.2.2 ++ [Event.debugPrintf hv.2.1.throttle] ++ fs.2
      ++ fs.1.runMotors hv.2.1)

/-- `Hackflight::doSerialComms`. -/
def Hackflight.doSerialComms (inp : Inputs) (h : Hackflight S H) : List Event :=
  inp.serialBytes.map Event.mspUpdate
    ++ inp.mspBytes.map Event.boardSerialWriteByte
    ++ (if !h.state.armed then [Event.mixerRunDisarmed] else [])

/-- `Hackflight::checkQuaternion`. -/
def Hackflight.checkQuaternion (c : Collaborators S H) (inp : Inputs) (h : Hackflight S H) :
    Hackflight S H × List Event :=
  match inp.quaternion with
  | none => (h, [])
  | some q =>
    let h1 : Hackflight S H := { h with state := h.state.updateQuaternion c q }
    let h2 : Hackflight S H :=
      { h1 with stabilizer := c.stabilizerUpdateEulerAngles h1.stabilizer h1.state.eulerAngles }
    (h2,
      [Event.stateUpdateQuaternion q, Event.stabilizerUpdateEulerAngles h1.state.eulerAngles]
      ++ h2.doSerialComms inp)

/-- Lines 152-155 of `checkReceiver`: disarm. -/
def Hackflight.disarm (h : Hackflight S H) : Hackflight S H :=
  if h.state.armed && h.receiver.disarming then
    { h with state := { h.state with armed := false } }
  else h

/-- Lines 157-161 of `checkReceiver`: arm after the safety checks. -/
def Hackflight.arm (c : Collaborators S H) (h : Hackflight S H) : Hackflight S H :=
  if !h.state.armed && h.receiver.arming && !h.failsafe
      && h.safeAngle c Axis.AXIS_ROLL && h.safeAngle c Axis.AXIS_PITCH then
    { h with state := { h.state with armed := true },
             yawInitial := h.state.eulerAngles Axis.AXIS_YAW }
  else h

/-- `Hackflight::checkReceiver`. -/
def Hackflight.checkReceiver (c : Collaborators S H) (inp : Inputs) (h : Hackflight S H) :
    Hackflight S H × List Event :=
  match inp.getDemands with
  | none => (h, [Event.receiverGetDemands (h.state.eulerAngles Axis.AXIS_YAW - h.yawInitial)])
  | some rx =>
    let h1 : Hackflight S H :=
      { h with receiver := rx, stabilizer := c.stabilizerUpdateDemands h.stabilizer rx.demands }
    let h2 : Hackflight S H :=
      if h1.receiver.throttleIsDown then
        { h1 with stabilizer := c.stabilizerResetIntegral h1.stabilizer }
      else h1
    let h3 := h2.disarm
    let h4 := h3.arm c
    (h4,
      [Event.receiverGetDemands (h.state.eulerAngles Axis.AXIS_YAW - h.yawInitial),
        Event.stabilizerUpdateDemands rx.demands]
      ++ (if h1.receiver.throttleIsDown then [Event.stabilizerResetIntegral] else [])
      ++ (if h4.state.armed && h4.receiver.throttleIsDown then [Event.mixerCutMotors] else [])
      ++ [Event.boardShowArmedStatus h4.state.armed])

/-- `Hackflight::checkAccelerometer`. -/
def Hackflight.checkAccelerometer (inp : Inputs) (h : Hackflight S H) :
    Hackflight S H × List Event :=
  match inp.accelerometer with
  | none => (h, [])
  | some accelGs =>
    ({ h with state := h.state.updateAccelerometer accelGs },
      [Event.stateUpdateAccelerometer accelGs])

/-- `Hackflight::checkBarometer`. -/
def Hackflight.checkBarometer (c : Collaborators S H) (inp : Inputs) (h : Hackflight S H) :
    Hackflight S H × List Event :=
  match inp.barometer with
  | none => (h, [])
  | some pressure =>
    ({ h with state := h.state.updateBarometer c pressure },
      [Event.stateUpdateBarometer pressure])

/-- `Hackflight::update`: one control cycle. -/
def Hackflight.update (c : Collaborators S H) (inp : Inputs) (h : Hackflight S H) :
    Hackflight S H × List Event :=
  let g := h.checkGyroRates c inp
  let q := g.1.checkQuaternion c inp
  let r := q.1.checkReceiver c inp
  let a := r.1.checkAccelerometer inp
  let b := a.1.checkBarometer c inp
  (b.1, g.2 ++ q.2 ++ r.2 ++ a.2 ++ b.2)

/-- A finite sequence of update cycles, one per element of `inps`. -/
def Hackflight.updates (c : Collaborators S H) : List Inputs → Hackflight S H →
    Hackflight S H × List Event
  | [], h => (h, [])
  | inp :: inps, h =>
    let u := h.update c inp
    let rest := Hackflight.updates c inps u.1
    (rest.1, u.2 ++ rest.2)

/-- The receiver check makes an arm transition: the demands are fresh and the check
ends armed, having started disarmed or having disarmed on a disarm gesture. -/
def Hackflight.armsInCheck (c : Collaborators S H) (inp : Inputs) (h : Hackflight S H) :
    Bool :=
  match inp.getDemands with
  | none => false
  | some rx => (h.checkReceiver c inp).1.state.armed && (!h.state.armed || rx.disarming)

/-- The yaw Euler angle held when the receiver check of the cycle runs, if that check
makes an arm transition. -/
def Hackflight.yawAtArm (c : Collaborators S H) (inp : Inputs) (h : Hackflight S H) :
    Option ℚ :=
  if (((h.checkGyroRates c inp).1.checkQuaternion c inp).1).armsInCheck c inp then
    some (((h.checkGyroRates c inp).1.checkQuaternion c inp).1.state.eulerAngles Axis.AXIS_YAW)
  else
    none

/-- The yaw Euler angle held at the most recent arm transition of a sequence of cycles;
`none` if the sequence has no arm transition. -/
def Hackflight.lastArmYaw (c : Collaborators S H) : List Inputs → Hackflight S H → Option ℚ
  | [], _ => none
  | inp :: inps, h =>
    match Hackflight.lastArmYaw c inps (h.update c inp).1 with
    | some y => some y
    | none => h.yawAtArm c inp

/-- The demands the specification requires `Mixer::runArmed` to receive in a cycle with
the gyrometer sample `gyroRates`: a copy of the receiver's stored demands, passed first
through `Stabilizer::modifyDemands(gyroRates, .)` and then, if and only if a hover
controller is configured and the receiver reports hover mode, through
`Hover::modifyDemands(state, .)`, where `state` is the vehicle state holding the new
gyrometer sample. -/
def Hackflight.specDemands (c : Collaborators S H) (h : Hackflight S H) (gyroRates : Vec3) :
    demands_t :=
  let stabilized := (c.stabilizerModifyDemands h.stabilizer gyroRates h.receiver.demands).2
  match h.hover with
  | some hov =>
    if h.receiver.inHoverMode then
      (c.hoverModifyDemands hov (h.state.updateGyrometer gyroRates) stabilized).2
    else
      stabilized
  | none => stabilized

/-! ## Sample collaborators and states used to instantiate the theorems -/

/-- A stabilizer and hover controller without state that leave the demands as they
are; `maxArmingAngle` is 1. -/
def sampleCollaborators : Collaborators Unit Unit where
  maxArmingAngle := 1
  computeEulerAngles := fun q a =>
    match a with
    | Axis.AXIS_ROLL => q.x
    | Axis.AXIS_PITCH => q.y
    | Axis.AXIS_YAW => q.z
  pressureToAltitude := fun p => p
  stabilizerUpdateEulerAngles := fun s _ => s
  stabilizerUpdateDemands := fun s _ => s
  stabilizerResetIntegral := fun s => s
  stabilizerModifyDemands := fun s _ d => (s, d)
  hoverModifyDemands := fun s _ d => (s, d)

/-- All demands zero. -/
def zeroDemands : demands_t := ⟨0, 0, 0, 0, 0⟩

/-- The zero sample. -/
def zeroVec3 : Vec3 := ⟨0, 0, 0⟩

/-- A receiver state with the given answers of `throttleIsDown`, `arming`, `disarming`. -/
def sampleReceiver (throttleIsDown arming disarming : Bool) : Receiver :=
  ⟨zeroDemands, throttleIsDown, arming, disarming, false⟩

/-- An orchestrator with the given roll, pitch and yaw angles, arming flag, failsafe
flag and `yawInitial`; no hover controller, throttle down. -/
def sampleHackflight (roll pitch yaw : ℚ) (armed failsafe : Bool) (yawInitial : ℚ) :
    Hackflight Unit Unit where
  receiver := sampleReceiver true false false
  stabilizer := ()
  hover := none
  state :=
    { eulerAngles := fun a =>
        match a with
        | Axis.AXIS_ROLL => roll
        | Axis.AXIS_PITCH => pitch
        | Axis.AXIS_YAW => yaw
      angularRates := zeroVec3
      altitude := 0
      accel := zeroVec3
      armed := armed }
  failsafe := failsafe
  yawInitial := yawInitial

/-- A cycle in which no sensor has fresh data, the signal is not lost and the
receiver answers `getDemands`. -/
def receiverOnly (getDemands : Option Receiver) : Inputs where
  gyrometer := none
  lostSignal := false
  quaternion := none
  serialBytes := []
  mspBytes := []
  getDemands := getDemands
  accelerometer := none
  barometer := none

/-- A cycle with a fresh gyrometer sample in which the receiver reports lost signal,
and delivers fresh demands with an arm gesture. -/
def lostSignalCycle : Inputs where
  gyrometer := some zeroVec3
  lostSignal := true
  quaternion := none
  serialBytes := []
  mspBytes := []
  getDemands := some (sampleReceiver true true false)
  accelerometer := none
  barometer := none

/-- A cycle with a fresh gyrometer sample and a fresh receiver report with throttle
down and full roll demand; no other sensor is fresh and the signal is not lost. -/
def throttleDownCycle : Inputs where
  gyrometer := some zeroVec3
  lostSignal := false
  quaternion := none
  serialBytes := []
  mspBytes := []
  getDemands := some ⟨⟨1, 0, 0, 0, 0⟩, true, false, false, false⟩
  accelerometer := none
  barometer := none

/-- A cycle in which the only fresh sample is an orientation with yaw 45 (roll and
pitch 0) and the receiver has no fresh demands. -/
def yaw45Cycle : Inputs where
  gyrometer := none
  lostSignal := false
  quaternion := some ⟨0, 0, 0, 45⟩
  serialBytes := []
  mspBytes := []
  getDemands := none
  accelerometer := none
  barometer := none

/-- Collaborators that show the order of composition: the stabilizer adds 1 to the
throttle demand and the hover controller doubles it; `maxArmingAngle` is 1. -/
def orderCollaborators : Collaborators Unit Unit where
  maxArmingAngle := 1
  computeEulerAngles := fun q a =>
    match a with
    | Axis.AXIS_ROLL => q.x
    | Axis.AXIS_PITCH => q.y
    | Axis.AXIS_YAW => q.z
  pressureToAltitude := fun p => p
  stabilizerUpdateEulerAngles := fun s _ => s
  stabilizerUpdateDemands := fun s _ => s
  stabilizerResetIntegral := fun s => s
  stabilizerModifyDemands := fun s _ d => (s, { d with throttle := d.throttle + 1 })
  hoverModifyDemands := fun s _ d => (s, { d with throttle := 2 * d.throttle })

/-- A level, armed orchestrator in flight: throttle demand 1 (not down), a hover
controller configured (`hover`) or not, the receiver in hover mode or not. -/
def flyingHackflight (hover inHoverMode : Bool) : Hackflight Unit Unit where
  receiver := ⟨⟨0, 0, 0, 1, 0⟩, false, false, false, inHoverMode⟩
  stabilizer := ()
  hover := if hover then some () else none
  state :=
    { eulerAngles := fun _ => 0
      angularRates := zeroVec3
      altitude := 0
      accel := zeroVec3
      armed := true }
  failsafe := false
  yawInitial := 0

/-- A cycle in which the only fresh sample is a gyrometer sample; the signal is not
lost and the receiver has no fresh demands. -/
def gyroOnlyCycle : Inputs where
  gyrometer := some zeroVec3
  lostSignal := false
  quaternion := none
  serialBytes := []
  mspBytes := []
  getDemands := none
  accelerometer := none
  barometer := none

/-- A cycle without any fresh sensor sample, in which the receiver reports lost signal
and has no fresh demands. -/
def lostSignalNoGyroCycle : Inputs where
  gyrometer := none
  lostSignal := true
  quaternion := none
  serialBytes := []
  mspBytes := []
  getDemands := none
  accelerometer := none
  barometer := none

/-! ## Lemmas on the steps of a cycle -/

theorem checkReceiver_stale (c : Collaborators S H) (inp : Inputs) (h : Hackflight S H)
    (hrx : inp.getDemands = none) : (h.checkReceiver c inp).1 = h := by
  simp [Hackflight.checkReceiver, hrx]

/-- The arming flag after a receiver check with fresh demands. -/
theorem checkReceiver_armed (c : Collaborators S H) (inp : Inputs) (h : Hackflight S H)
    (rx : Receiver) (hrx : inp.getDemands = some rx) :
    (h.checkReceiver c inp).1.state.armed =
      ((h.state.armed && !rx.disarming) ||
        (rx.arming && !h.failsafe && h.safeAngle c Axis.AXIS_ROLL
          && h.safeAngle c Axis.AXIS_PITCH)) := by
  obtain ⟨rcv, stab, hov, ⟨eul, rates, alt, acc, armed⟩, fs, yi⟩ := h
  obtain ⟨d, tid, arming, disarming, hm⟩ := rx
  simp only [Hackflight.checkReceiver, hrx, Hackflight.arm, Hackflight.disarm,
    Hackflight.safeAngle]
  by_cases h1 : |eul Axis.AXIS_ROLL| < c.maxArmingAngle <;>
    by_cases h2 : |eul Axis.AXIS_PITCH| < c.maxArmingAngle <;>
    cases armed <;> cases disarming <;> cases arming <;> cases fs <;> cases tid <;>
    simp [h1, h2]

/-- A receiver check never writes the failsafe flag. -/
theorem checkReceiver_failsafe (c : Collaborators S H) (inp : Inputs) (h : Hackflight S H) :
    (h.checkReceiver c inp).1.failsafe = h.failsafe := by
  unfold Hackflight.checkReceiver
  cases inp.getDemands with
  | none => rfl
  | some rx =>
    simp only [Hackflight.arm, Hackflight.disarm]
    split_ifs <;> rfl

/-- The gyro step leaves a disarmed orchestrator disarmed and keeps the failsafe flag. -/
theorem checkGyroRates_disarmed (c : Collaborators S H) (inp : Inputs) (h : Hackflight S H)
    (harmed : h.state.armed = false) :
    (h.checkGyroRates c inp).1.state.armed = false ∧
      (h.checkGyroRates c inp).1.failsafe = h.failsafe := by
  unfold Hackflight.checkGyroRates
  cases inp.gyrometer with
  | none => exact ⟨harmed, rfl⟩
  | some gyroRates =>
    simp only [Hackflight.checkFailsafe, Hackflight.runHover, State.updateGyrometer]
    cases h.hover <;> cases h.receiver.inHoverMode <;> simp [harmed]

/-- The orientation step writes neither the arming flag, nor the failsafe flag, nor
`yawInitial`, nor the receiver, nor any field of the vehicle state other than the Euler
angles. -/
theorem checkQuaternion_frame (c : Collaborators S H) (inp : Inputs) (h : Hackflight S H) :
    (h.checkQuaternion c inp).1.state.armed = h.state.armed ∧
      (h.checkQuaternion c inp).1.failsafe = h.failsafe ∧
      (h.checkQuaternion c inp).1.yawInitial = h.yawInitial ∧
      (h.checkQuaternion c inp).1.receiver = h.receiver ∧
      (h.checkQuaternion c inp).1.state.angularRates = h.state.angularRates ∧
      (h.checkQuaternion c inp).1.state.altitude = h.state.altitude ∧
      (h.checkQuaternion c inp).1.state.accel = h.state.accel := by
  unfold Hackflight.checkQuaternion
  cases inp.quaternion <;> simp [State.updateQuaternion]

/-- The accelerometer step writes only the acceleration of the vehicle state. -/
theorem checkAccelerometer_frame (inp : Inputs) (h : Hackflight S H) :
    (h.checkAccelerometer inp).1.state.armed = h.state.armed ∧
      (h.checkAccelerometer inp).1.failsafe = h.failsafe ∧
      (h.checkAccelerometer inp).1.yawInitial = h.yawInitial ∧
      (h.checkAccelerometer inp).1.receiver = h.receiver ∧
      (h.checkAccelerometer inp).1.state.eulerAngles = h.state.eulerAngles ∧
      (h.checkAccelerometer inp).1.state.angularRates = h.state.angularRates ∧
      (h.checkAccelerometer inp).1.state.altitude = h.state.altitude := by
  unfold Hackflight.checkAccelerometer
  cases inp.accelerometer <;> simp [State.updateAccelerometer]

/-- The barometer step writes only the altitude of the vehicle state. -/
theorem checkBarometer_frame (c : Collaborators S H) (inp : Inputs) (h : Hackflight S H) :
    (h.checkBarometer c inp).1.state.armed = h.state.armed ∧
      (h.checkBarometer c inp).1.failsafe = h.failsafe ∧
      (h.checkBarometer c inp).1.yawInitial = h.yawInitial ∧
      (h.checkBarometer c inp).1.receiver = h.receiver ∧
      (h.checkBarometer c inp).1.state.eulerAngles = h.state.eulerAngles ∧
      (h.checkBarometer c inp).1.state.angularRates = h.state.angularRates ∧
      (h.checkBarometer c inp).1.state.accel = h.state.accel := by
  unfold Hackflight.checkBarometer
  cases inp.barometer <;> simp [State.updateBarometer]

/-- A receiver check leaves a disarmed orchestrator in failsafe disarmed. -/
theorem checkReceiver_failsafe_disarmed (c : Collaborators S H) (inp : Inputs)
    (h : Hackflight S H) (harmed : h.state.armed = false) (hfs : h.failsafe = true) :
    (h.checkReceiver c inp).1.state.armed = false := by
  cases hrx : inp.getDemands with
  | none => rw [checkReceiver_stale c inp h hrx]; exact harmed
  | some rx => rw [checkReceiver_armed c inp h rx hrx]; simp [harmed, hfs]

/-- One cycle keeps the pair failsafe set, disarmed. -/
theorem update_failsafe_disarmed (c : Collaborators S H) (inp : Inputs) (h : Hackflight S H)
    (hfs : h.failsafe = true) (harmed : h.state.armed = false) :
    (h.update c inp).1.failsafe = true ∧ (h.update c inp).1.state.armed = false := by
  have hg := checkGyroRates_disarmed c inp h harmed
  have hq := checkQuaternion_frame c inp (h.checkGyroRates c inp).1
  have hr1 := checkReceiver_failsafe c inp ((h.checkGyroRates c inp).1.checkQuaternion c inp).1
  have hr2 := checkReceiver_failsafe_disarmed c inp
    ((h.checkGyroRates c inp).1.checkQuaternion c inp).1
    (by rw [hq.1]; exact hg.1) (by rw [hq.2.1, hg.2]; exact hfs)
  have ha := checkAccelerometer_frame inp
    (((h.checkGyroRates c inp).1.checkQuaternion c inp).1.checkReceiver c inp).1
  have hb := checkBarometer_frame c inp
    ((((h.checkGyroRates c inp).1.checkQuaternion c inp).1.checkReceiver c inp).1.checkAccelerometer
      inp).1
  simp only [Hackflight.update]
  refine ⟨?_, ?_⟩
  · rw [hb.2.1, ha.2.1, hr1, hq.2.1, hg.2]; exact hfs
  · rw [hb.1, ha.1]; exact hr2

/-- A member of a list that is a single call or empty is that call. -/
theorem eq_of_mem_ite {p : Prop} [Decidable p] {x e : Event}
    (he : e ∈ (if p then [x] else [])) : e = x := by
  split_ifs at he <;> simp_all

/-- The hover step writes only the hover controller, and calls only
`Hover::modifyDemands`. -/
theorem runHover_frame (c : Collaborators S H) (h : Hackflight S H) (demands : demands_t) :
    (h.runHover c demands).1.state = h.state ∧
      (h.runHover c demands).1.failsafe = h.failsafe ∧
      (h.runHover c demands).1.yawInitial = h.yawInitial ∧
      (h.runHover c demands).1.receiver = h.receiver ∧
      (h.runHover c demands).1.stabilizer = h.stabilizer ∧
      ∀ e ∈ (h.runHover c demands).2.2, ∃ d, e = Event.hoverModifyDemands d := by
  unfold Hackflight.runHover
  cases h.hover with
  | none => simp
  | some hov => cases h.receiver.inHoverMode <;> simp

/-- The gyro step on a fresh sample, with the result `hv` of the stabilizer and hover
steps made explicit: the failsafe evaluation and the motor drive run on `hv`. -/
theorem checkGyroRates_fresh (c : Collaborators S H) (inp : Inputs) (h : Hackflight S H)
    (gyroRates : Vec3) (hg : inp.gyrometer = some gyroRates) :
    ∃ hv : Hackflight S H × demands_t × List Event,
      hv.1.state = h.state.updateGyrometer gyroRates ∧
      hv.1.failsafe = h.failsafe ∧
      hv.1.yawInitial = h.yawInitial ∧
      hv.1.receiver = h.receiver ∧
      (∀ e ∈ hv.2.2, ∃ d, e = Event.hoverModifyDemands d) ∧
      h.checkGyroRates c inp =
        ((hv.1.checkFailsafe inp).1,
          [Event.stateUpdateGyrometer gyroRates,
            Event.stabilizerModifyDemands gyroRates h.receiver.demands]
          ++ hv.2.2 ++ [Event.debugPrintf hv.2.1.throttle] ++ (hv.1.checkFailsafe inp).2
          ++ (hv.1.checkFailsafe inp).1.runMotors hv.2.1) := by
  have hh := runHover_frame c
    { h with state := h.state.updateGyrometer gyroRates,
             stabilizer := (c.stabilizerModifyDemands h.stabilizer gyroRates
               h.receiver.demands).1 }
    (c.stabilizerModifyDemands h.stabilizer gyroRates h.receiver.demands).2
  exact ⟨_, hh.1, hh.2.1, hh.2.2.1, hh.2.2.2.1, hh.2.2.2.2.2,
    by simp only [Hackflight.checkGyroRates, hg]⟩

/-- The failsafe evaluation when armed and the signal is lost. -/
theorem checkFailsafe_lostSignal (inp : Inputs) (h : Hackflight S H)
    (harmed : h.state.armed = true) (hl : inp.lostSignal = true) :
    h.checkFailsafe inp =
      ({ h with state := { h.state with armed := false }, failsafe := true },
        [Event.mixerCutMotors, Event.boardShowArmedStatus false]) := by
  simp [Hackflight.checkFailsafe, harmed, hl]

/-- The failsafe evaluation writes neither the receiver nor `yawInitial`, never arms and
never clears the failsafe flag. -/
theorem checkFailsafe_frame (inp : Inputs) (h : Hackflight S H) :
    (h.checkFailsafe inp).1.receiver = h.receiver ∧
      (h.checkFailsafe inp).1.yawInitial = h.yawInitial ∧
      (h.checkFailsafe inp).1.state.eulerAngles = h.state.eulerAngles ∧
      (h.checkFailsafe inp).1.state.angularRates = h.state.angularRates ∧
      (h.checkFailsafe inp).1.state.altitude = h.state.altitude ∧
      (h.checkFailsafe inp).1.state.accel = h.state.accel ∧
      (∀ e ∈ (h.checkFailsafe inp).2, e.isRunArmed = false) := by
  unfold Hackflight.checkFailsafe
  split_ifs <;> simp [Event.isRunArmed]

/-- The gyro step when the orchestrator is armed, the sample is fresh and the signal
is lost: the state after it and the calls it makes. -/
theorem checkGyroRates_lostSignal (c : Collaborators S H) (inp : Inputs) (h : Hackflight S H)
    (gyroRates : Vec3) (harmed : h.state.armed = true)
    (hg : inp.gyrometer = some gyroRates) (hl : inp.lostSignal = true) :
    (h.checkGyroRates c inp).1.state.armed = false ∧
      (h.checkGyroRates c inp).1.failsafe = true ∧
      ∃ pre : List Event, (∀ e ∈ pre, e.isMixer = false) ∧
        (h.checkGyroRates c inp).2 =
          pre ++ [Event.mixerCutMotors, Event.boardShowArmedStatus false] := by
  obtain ⟨hv, hst, -, -, -, hev, heq⟩ := checkGyroRates_fresh c inp h gyroRates hg
  have hva : hv.1.state.armed = true := by rw [hst]; exact harmed
  rw [heq, checkFailsafe_lostSignal inp hv.1 hva hl]
  refine ⟨rfl, rfl,
    [Event.stateUpdateGyrometer gyroRates,
      Event.stabilizerModifyDemands gyroRates h.receiver.demands]
    ++ hv.2.2 ++ [Event.debugPrintf hv.2.1.throttle], ?_, by simp [Hackflight.runMotors]⟩
  intro e he
  simp only [List.mem_append, List.mem_cons, List.mem_singleton, List.not_mem_nil,
    or_false] at he
  rcases he with ((rfl | rfl) | he) | rfl
  · rfl
  · rfl
  · obtain ⟨d, rfl⟩ := hev e he; rfl
  · rfl

/-- The calls of the serial relay are not `runArmed`. -/
theorem doSerialComms_no_runArmed (inp : Inputs) (h : Hackflight S H) :
    ∀ e ∈ h.doSerialComms inp, e.isRunArmed = false := by
  intro e he
  simp only [Hackflight.doSerialComms, List.mem_append, List.mem_map] at he
  rcases he with (⟨b, -, rfl⟩ | ⟨b, -, rfl⟩) | he
  · rfl
  · rfl
  · rw [eq_of_mem_ite he]; rfl

/-- The orientation step never calls `runArmed`. -/
theorem checkQuaternion_no_runArmed (c : Collaborators S H) (inp : Inputs)
    (h : Hackflight S H) : ∀ e ∈ (h.checkQuaternion c inp).2, e.isRunArmed = false := by
  intro e he
  unfold Hackflight.checkQuaternion at he
  cases hq : inp.quaternion with
  | none => simp [hq] at he
  | some q =>
    simp only [hq, List.mem_append, List.mem_cons, List.mem_singleton, List.not_mem_nil,
      or_false] at he
    rcases he with (rfl | rfl) | he
    · rfl
    · rfl
    · exact doSerialComms_no_runArmed inp _ e he

/-- The receiver check never calls `runArmed`. -/
theorem checkReceiver_no_runArmed (c : Collaborators S H) (inp : Inputs)
    (h : Hackflight S H) : ∀ e ∈ (h.checkReceiver c inp).2, e.isRunArmed = false := by
  intro e he
  unfold Hackflight.checkReceiver at he
  cases hrx : inp.getDemands with
  | none =>
    simp only [hrx, List.mem_singleton] at he
    subst he; rfl
  | some rx =>
    simp only [hrx, List.mem_append, List.mem_cons, List.mem_singleton, List.not_mem_nil,
      or_false] at he
    rcases he with (((rfl | rfl) | he) | he) | rfl
    · rfl
    · rfl
    · rw [eq_of_mem_ite he]; rfl
    · rw [eq_of_mem_ite he]; rfl
    · rfl

/-- The accelerometer step never calls `runArmed`. -/
theorem checkAccelerometer_no_runArmed (inp : Inputs) (h : Hackflight S H) :
    ∀ e ∈ (h.checkAccelerometer inp).2, e.isRunArmed = false := by
  intro e he
  unfold Hackflight.checkAccelerometer at he
  cases ha : inp.accelerometer with
  | none => simp [ha] at he
  | some a =>
    simp only [ha, List.mem_singleton] at he
    subst he; rfl

/-- The barometer step never calls `runArmed`. -/
theorem checkBarometer_no_runArmed (c : Collaborators S H) (inp : Inputs)
    (h : Hackflight S H) : ∀ e ∈ (h.checkBarometer c inp).2, e.isRunArmed = false := by
  intro e he
  unfold Hackflight.checkBarometer at he
  cases hb : inp.barometer with
  | none => simp [hb] at he
  | some p =>
    simp only [hb, List.mem_singleton] at he
    subst he; rfl

/-- If the gyro step calls no `runArmed`, the whole cycle calls none. -/
theorem update_no_runArmed_of_gyro (c : Collaborators S H) (inp : Inputs)
    (h : Hackflight S H) (hg : ∀ e ∈ (h.checkGyroRates c inp).2, e.isRunArmed = false) :
    ∀ e ∈ (h.update c inp).2, e.isRunArmed = false := by
  intro e he
  simp only [Hackflight.update, List.mem_append] at he
  rcases he with (((he | he) | he) | he) | he
  · exact hg e he
  · exact checkQuaternion_no_runArmed c inp _ e he
  · exact checkReceiver_no_runArmed c inp _ e he
  · exact checkAccelerometer_no_runArmed inp _ e he
  · exact checkBarometer_no_runArmed c inp _ e he

/-- The calls of a cycle are those of the gyro step followed by the calls of the other
steps. -/
theorem update_events (c : Collaborators S H) (inp : Inputs) (h : Hackflight S H) :
    ∃ post : List Event, (h.update c inp).2 = (h.checkGyroRates c inp).2 ++ post :=
  ⟨((h.checkGyroRates c inp).1.checkQuaternion c inp).2
      ++ (((h.checkGyroRates c inp).1.checkQuaternion c inp).1.checkReceiver c inp).2
      ++ ((((h.checkGyroRates c inp).1.checkQuaternion c inp).1.checkReceiver c inp).1.checkAccelerometer
          inp).2
      ++ (((((h.checkGyroRates c inp).1.checkQuaternion c inp).1.checkReceiver c
          inp).1.checkAccelerometer inp).1.checkBarometer c inp).2,
    by simp only [Hackflight.update, List.append_assoc]⟩

/-- The arming and failsafe flags at the end of a cycle are those left by the receiver
check. -/
theorem update_flags (c : Collaborators S H) (inp : Inputs) (h : Hackflight S H) :
    (h.update c inp).1.state.armed =
        (((h.checkGyroRates c inp).1.checkQuaternion c inp).1.checkReceiver c inp).1.state.armed ∧
      (h.update c inp).1.failsafe =
        (((h.checkGyroRates c inp).1.checkQuaternion c inp).1.checkReceiver c inp).1.failsafe ∧
      (h.update c inp).1.yawInitial =
        (((h.checkGyroRates c inp).1.checkQuaternion c inp).1.checkReceiver c inp).1.yawInitial ∧
      (h.update c inp).1.receiver =
        (((h.checkGyroRates c inp).1.checkQuaternion c inp).1.checkReceiver c inp).1.receiver := by
  have ha := checkAccelerometer_frame inp
    (((h.checkGyroRates c inp).1.checkQuaternion c inp).1.checkReceiver c inp).1
  have hb := checkBarometer_frame c inp
    ((((h.checkGyroRates c inp).1.checkQuaternion c inp).1.checkReceiver c inp).1.checkAccelerometer
      inp).1
  simp only [Hackflight.update]
  exact ⟨by rw [hb.1, ha.1], by rw [hb.2.1, ha.2.1], by rw [hb.2.2.1, ha.2.2.1],
    by rw [hb.2.2.2.1, ha.2.2.2.1]⟩

/-- A call that is `runArmed` is a mixer call. -/
theorem isRunArmed_false_of_isMixer_false {e : Event} (he : e.isMixer = false) :
    e.isRunArmed = false := by
  cases e <;> simp_all [Event.isMixer, Event.isRunArmed]

/-- The gyro step writes neither the receiver, nor `yawInitial`, nor any field of the
vehicle state other than the angular rates and the arming flag. -/
theorem checkGyroRates_frame (c : Collaborators S H) (inp : Inputs) (h : Hackflight S H) :
    (h.checkGyroRates c inp).1.receiver = h.receiver ∧
      (h.checkGyroRates c inp).1.yawInitial = h.yawInitial ∧
      (h.checkGyroRates c inp).1.state.eulerAngles = h.state.eulerAngles ∧
      (h.checkGyroRates c inp).1.state.altitude = h.state.altitude ∧
      (h.checkGyroRates c inp).1.state.accel = h.state.accel := by
  cases hg : inp.gyrometer with
  | none => simp [Hackflight.checkGyroRates, hg]
  | some gyroRates =>
    obtain ⟨hv, hst, -, hyi, hrc, -, heq⟩ := checkGyroRates_fresh c inp h gyroRates hg
    have hf := checkFailsafe_frame inp hv.1
    rw [heq]
    refine ⟨by rw [hf.1, hrc], by rw [hf.2.1, hyi], ?_, ?_, ?_⟩
    · show (hv.1.checkFailsafe inp).1.state.eulerAngles = _
      rw [hf.2.2.1, hst]; rfl
    · show (hv.1.checkFailsafe inp).1.state.altitude = _
      rw [hf.2.2.2.2.1, hst]; rfl
    · show (hv.1.checkFailsafe inp).1.state.accel = _
      rw [hf.2.2.2.2.2.1, hst]; rfl

/-- With throttle down at the gyro step, the gyro step does not call `runArmed`. -/
theorem checkGyroRates_throttleDown (c : Collaborators S H) (inp : Inputs)
    (h : Hackflight S H) (hdown : h.receiver.throttleIsDown = true) :
    ∀ e ∈ (h.checkGyroRates c inp).2, e.isRunArmed = false := by
  intro e he
  cases hg : inp.gyrometer with
  | none => simp [Hackflight.checkGyroRates, hg] at he
  | some gyroRates =>
    obtain ⟨hv, -, -, -, hrc, hev, heq⟩ := checkGyroRates_fresh c inp h gyroRates hg
    have hf := checkFailsafe_frame inp hv.1
    have hrm : (hv.1.checkFailsafe inp).1.runMotors hv.2.1 = [] := by
      simp [Hackflight.runMotors, hf.1, hrc, hdown]
    rw [heq] at he
    simp only [hrm, List.append_nil, List.mem_append, List.mem_cons, List.mem_singleton,
      List.not_mem_nil, or_false] at he
    rcases he with (((rfl | rfl) | he) | rfl) | he
    · rfl
    · rfl
    · obtain ⟨d, rfl⟩ := hev e he; rfl
    · rfl
    · exact hf.2.2.2.2.2.2 e he

/-- The receiver object after a receiver check: the one `getDemands` delivered, or the
previous one when the demands are not fresh. -/
theorem checkReceiver_receiver (c : Collaborators S H) (inp : Inputs) (h : Hackflight S H) :
    (h.checkReceiver c inp).1.receiver = inp.getDemands.getD h.receiver := by
  unfold Hackflight.checkReceiver
  cases inp.getDemands with
  | none => rfl
  | some rx =>
    simp only [Hackflight.arm, Hackflight.disarm]
    split_ifs <;> rfl

/-- A receiver check writes no field of the vehicle state other than the arming flag. -/
theorem checkReceiver_state_frame (c : Collaborators S H) (inp : Inputs)
    (h : Hackflight S H) :
    (h.checkReceiver c inp).1.state.eulerAngles = h.state.eulerAngles ∧
      (h.checkReceiver c inp).1.state.angularRates = h.state.angularRates ∧
      (h.checkReceiver c inp).1.state.altitude = h.state.altitude ∧
      (h.checkReceiver c inp).1.state.accel = h.state.accel := by
  unfold Hackflight.checkReceiver
  cases inp.getDemands with
  | none => simp
  | some rx =>
    simp only [Hackflight.arm, Hackflight.disarm]
    split_ifs <;> simp

/-- The receiver object at the end of a cycle. -/
theorem update_receiver (c : Collaborators S H) (inp : Inputs) (h : Hackflight S H) :
    (h.update c inp).1.receiver = inp.getDemands.getD h.receiver := by
  rw [(update_flags c inp h).2.2.2, checkReceiver_receiver, (checkQuaternion_frame c inp _).2.2.2.1,
    (checkGyroRates_frame c inp h).1]

/-- Over cycles in which every fresh receiver report has throttle down, starting with
throttle down, `runArmed` is never called. -/
theorem updates_throttleDown (c : Collaborators S H) (inps : List Inputs)
    (h : Hackflight S H) (hdown : h.receiver.throttleIsDown = true)
    (hrx : ∀ inp ∈ inps, ∀ rx, inp.getDemands = some rx → rx.throttleIsDown = true) :
    ∀ e ∈ (Hackflight.updates c inps h).2, e.isRunArmed = false := by
  induction inps generalizing h with
  | nil => intro e he; simp [Hackflight.updates] at he
  | cons inp inps ih =>
    intro e he
    simp only [Hackflight.updates, List.mem_append] at he
    rcases he with he | he
    · exact update_no_runArmed_of_gyro c inp h (checkGyroRates_throttleDown c inp h hdown) e he
    · refine ih (h.update c inp).1 ?_ (fun i hi => hrx i (List.mem_cons_of_mem _ hi)) e he
      rw [update_receiver]
      cases hgd : inp.getDemands with
      | none => exact hdown
      | some rx => exact hrx inp (List.mem_cons_self _ _) rx hgd

/-- The calls the gyro step can make; it makes none without a fresh sample. -/
theorem checkGyroRates_mem (c : Collaborators S H) (inp : Inputs) (h : Hackflight S H)
    (e : Event) (he : e ∈ (h.checkGyroRates c inp).2) :
    ∃ gyroRates, inp.gyrometer = some gyroRates ∧
      (e = Event.stateUpdateGyrometer gyroRates ∨
        (∃ d, e = Event.stabilizerModifyDemands gyroRates d) ∨
        (∃ d, e = Event.hoverModifyDemands d) ∨
        (∃ t, e = Event.debugPrintf t) ∨
        e = Event.mixerCutMotors ∨
        e = Event.boardShowArmedStatus false ∨
        ∃ d, e = Event.mixerRunArmed d) := by
  cases hg : inp.gyrometer with
  | none => simp [Hackflight.checkGyroRates, hg] at he
  | some gyroRates =>
    refine ⟨gyroRates, rfl, ?_⟩
    obtain ⟨hv, -, -, -, -, hev, heq⟩ := checkGyroRates_fresh c inp h gyroRates hg
    rw [heq] at he
    simp only [List.mem_append, List.mem_cons, List.mem_singleton, List.not_mem_nil,
      or_false] at he
    rcases he with ((((rfl | rfl) | he) | rfl) | he) | he
    · exact Or.inl rfl
    · exact Or.inr (Or.inl ⟨_, rfl⟩)
    · exact Or.inr (Or.inr (Or.inl (hev e he)))
    · exact Or.inr (Or.inr (Or.inr (Or.inl ⟨_, rfl⟩)))
    · unfold Hackflight.checkFailsafe at he
      split_ifs at he
      · simp only [List.mem_cons, List.mem_singleton, List.not_mem_nil, or_false] at he
        rcases he with rfl | rfl
        · exact Or.inr (Or.inr (Or.inr (Or.inr (Or.inl rfl))))
        · exact Or.inr (Or.inr (Or.inr (Or.inr (Or.inr (Or.inl rfl)))))
      · simp at he
    · unfold Hackflight.runMotors at he
      rw [eq_of_mem_ite he]
      exact Or.inr (Or.inr (Or.inr (Or.inr (Or.inr (Or.inr ⟨_, rfl⟩)))))

/-- The calls the orientation step can make; it makes none without a fresh sample. -/
theorem checkQuaternion_mem (c : Collaborators S H) (inp : Inputs) (h : Hackflight S H)
    (e : Event) (he : e ∈ (h.checkQuaternion c inp).2) :
    ∃ q, inp.quaternion = some q ∧
      (e = Event.stateUpdateQuaternion q ∨
        (∃ a, e = Event.stabilizerUpdateEulerAngles a) ∨
        (∃ b, e = Event.mspUpdate b) ∨
        (∃ b, e = Event.boardSerialWriteByte b) ∨
        e = Event.mixerRunDisarmed) := by
  unfold Hackflight.checkQuaternion at he
  cases hq : inp.quaternion with
  | none => simp [hq] at he
  | some q =>
    refine ⟨q, rfl, ?_⟩
    simp only [hq, Hackflight.doSerialComms, List.mem_append, List.mem_cons,
      List.mem_singleton, List.not_mem_nil, or_false, List.mem_map] at he
    rcases he with (rfl | rfl) | (⟨b, -, rfl⟩ | ⟨b, -, rfl⟩) | he
    · exact Or.inl rfl
    · exact Or.inr (Or.inl ⟨_, rfl⟩)
    · exact Or.inr (Or.inr (Or.inl ⟨_, rfl⟩))
    · exact Or.inr (Or.inr (Or.inr (Or.inl ⟨_, rfl⟩)))
    · rw [eq_of_mem_ite he]
      exact Or.inr (Or.inr (Or.inr (Or.inr rfl)))

/-- The calls the receiver check can make. -/
theorem checkReceiver_mem (c : Collaborators S H) (inp : Inputs) (h : Hackflight S H)
    (e : Event) (he : e ∈ (h.checkReceiver c inp).2) :
    (∃ y, e = Event.receiverGetDemands y) ∨
      (∃ d, e = Event.stabilizerUpdateDemands d) ∨
      e = Event.stabilizerResetIntegral ∨
      e = Event.mixerCutMotors ∨
      ∃ b, e = Event.boardShowArmedStatus b := by
  unfold Hackflight.checkReceiver at he
  cases hrx : inp.getDemands with
  | none =>
    simp only [hrx, List.mem_singleton] at he
    exact Or.inl ⟨_, he⟩
  | some rx =>
    simp only [hrx, List.mem_append, List.mem_cons, List.mem_singleton, List.not_mem_nil,
      or_false] at he
    rcases he with (((rfl | rfl) | he) | he) | rfl
    · exact Or.inl ⟨_, rfl⟩
    · exact Or.inr (Or.inl ⟨_, rfl⟩)
    · rw [eq_of_mem_ite he]; exact Or.inr (Or.inr (Or.inl rfl))
    · rw [eq_of_mem_ite he]; exact Or.inr (Or.inr (Or.inr (Or.inl rfl)))
    · exact Or.inr (Or.inr (Or.inr (Or.inr ⟨_, rfl⟩)))

/-- The accelerometer step calls only `State::updateAccelerometer`, on a fresh sample. -/
theorem checkAccelerometer_mem (inp : Inputs) (h : Hackflight S H)
    (e : Event) (he : e ∈ (h.checkAccelerometer inp).2) :
    ∃ a, inp.accelerometer = some a ∧ e = Event.stateUpdateAccelerometer a := by
  unfold Hackflight.checkAccelerometer at he
  cases ha : inp.accelerometer with
  | none => simp [ha] at he
  | some a =>
    simp only [ha, List.mem_singleton] at he
    exact ⟨a, rfl, he⟩

/-- The barometer step calls only `State::updateBarometer`, on a fresh sample. -/
theorem checkBarometer_mem (c : Collaborators S H) (inp : Inputs) (h : Hackflight S H)
    (e : Event) (he : e ∈ (h.checkBarometer c inp).2) :
    ∃ p, inp.barometer = some p ∧ e = Event.stateUpdateBarometer p := by
  unfold Hackflight.checkBarometer at he
  cases hb : inp.barometer with
  | none => simp [hb] at he
  | some p =>
    simp only [hb, List.mem_singleton] at he
    exact ⟨p, rfl, he⟩

/-- A call of a cycle is a call of one of its five steps. -/
theorem update_mem (c : Collaborators S H) (inp : Inputs) (h : Hackflight S H)
    (e : Event) (he : e ∈ (h.update c inp).2) :
    e ∈ (h.checkGyroRates c inp).2 ∨
      e ∈ ((h.checkGyroRates c inp).1.checkQuaternion c inp).2 ∨
      e ∈ (((h.checkGyroRates c inp).1.checkQuaternion c inp).1.checkReceiver c inp).2 ∨
      e ∈ ((((h.checkGyroRates c inp).1.checkQuaternion c inp).1.checkReceiver c
        inp).1.checkAccelerometer inp).2 ∨
      e ∈ (((((h.checkGyroRates c inp).1.checkQuaternion c inp).1.checkReceiver c
        inp).1.checkAccelerometer inp).1.checkBarometer c inp).2 := by
  simp only [Hackflight.update, List.mem_append] at he
  tauto

/-- The vehicle state at the end of a cycle: the angular rates are those left by the
gyro step, the Euler angles those left by the orientation step; without a fresh
barometer (accelerometer) sample the altitude (acceleration) is that of the start. -/
theorem update_state (c : Collaborators S H) (inp : Inputs) (h : Hackflight S H) :
    (h.update c inp).1.state.angularRates = (h.checkGyroRates c inp).1.state.angularRates ∧
      (h.update c inp).1.state.eulerAngles =
        ((h.checkGyroRates c inp).1.checkQuaternion c inp).1.state.eulerAngles ∧
      (inp.barometer = none → (h.update c inp).1.state.altitude = h.state.altitude) ∧
      (inp.accelerometer = none → (h.update c inp).1.state.accel = h.state.accel) := by
  have hg := checkGyroRates_frame c inp h
  have hq := checkQuaternion_frame c inp (h.checkGyroRates c inp).1
  have hr := checkReceiver_state_frame c inp
    ((h.checkGyroRates c inp).1.checkQuaternion c inp).1
  have ha := checkAccelerometer_frame inp
    (((h.checkGyroRates c inp).1.checkQuaternion c inp).1.checkReceiver c inp).1
  have hb := checkBarometer_frame c inp
    ((((h.checkGyroRates c inp).1.checkQuaternion c inp).1.checkReceiver c inp).1.checkAccelerometer
      inp).1
  refine ⟨?_, ?_, ?_, ?_⟩
  · simp only [Hackflight.update]
    rw [hb.2.2.2.2.2.1, ha.2.2.2.2.2.1, hr.2.1, hq.2.2.2.2.1]
  · simp only [Hackflight.update]
    rw [hb.2.2.2.2.1, ha.2.2.2.2.1, hr.1]
  · intro hstale
    simp only [Hackflight.update]
    rw [show ∀ x : Hackflight S H, (x.checkBarometer c inp).1 = x from
      fun x => by simp [Hackflight.checkBarometer, hstale]]
    rw [ha.2.2.2.2.2.2, hr.2.2.1, hq.2.2.2.2.2.1, hg.2.2.2.1]
  · intro hstale
    simp only [Hackflight.update]
    rw [hb.2.2.2.2.2.2]
    rw [show ∀ x : Hackflight S H, (x.checkAccelerometer inp).1 = x from
      fun x => by simp [Hackflight.checkAccelerometer, hstale]]
    rw [hr.2.2.2, hq.2.2.2.2.2.2, hg.2.2.2.2]

/-- `yawInitial` after a receiver check: the current yaw if the check makes an arm
transition, the previous value otherwise. -/
theorem checkReceiver_yawInitial (c : Collaborators S H) (inp : Inputs)
    (h : Hackflight S H) :
    (h.checkReceiver c inp).1.yawInitial =
      if h.armsInCheck c inp then h.state.eulerAngles Axis.AXIS_YAW else h.yawInitial := by
  cases hrx : inp.getDemands with
  | none => simp [Hackflight.armsInCheck, Hackflight.checkReceiver, hrx]
  | some rx =>
    obtain ⟨rcv, stab, hov, ⟨eul, rates, alt, acc, armed⟩, fs, yi⟩ := h
    obtain ⟨d, tid, arming, disarming, hm⟩ := rx
    simp only [Hackflight.armsInCheck, Hackflight.checkReceiver, hrx, Hackflight.arm,
      Hackflight.disarm, Hackflight.safeAngle]
    by_cases h1 : |eul Axis.AXIS_ROLL| < c.maxArmingAngle <;>
      by_cases h2 : |eul Axis.AXIS_PITCH| < c.maxArmingAngle <;>
      cases armed <;> cases disarming <;> cases arming <;> cases fs <;> cases tid <;>
      simp [h1, h2]

/-- `yawInitial` at the end of a cycle. -/
theorem update_yawInitial (c : Collaborators S H) (inp : Inputs) (h : Hackflight S H) :
    (h.update c inp).1.yawInitial = (h.yawAtArm c inp).getD h.yawInitial := by
  rw [(update_flags c inp h).2.2.1, checkReceiver_yawInitial,
    (checkQuaternion_frame c inp _).2.2.1, (checkGyroRates_frame c inp h).2.1]
  unfold Hackflight.yawAtArm
  split_ifs <;> rfl

/-- `yawInitial` after a sequence of cycles is the yaw held at the most recent arm
transition, or its initial value if there was none. -/
theorem updates_yawInitial (c : Collaborators S H) (inps : List Inputs)
    (h : Hackflight S H) :
    (Hackflight.updates c inps h).1.yawInitial =
      (Hackflight.lastArmYaw c inps h).getD h.yawInitial := by
  induction inps generalizing h with
  | nil => rfl
  | cons inp inps ih =>
    simp only [Hackflight.updates, Hackflight.lastArmYaw]
    rw [ih (h.update c inp).1]
    cases Hackflight.lastArmYaw c inps (h.update c inp).1 with
    | some y => rfl
    | none => exact update_yawInitial c inp h

/-- Every receiver check calls `getDemands` once, with the current yaw minus
`yawInitial`. -/
theorem checkReceiver_getDemands (c : Collaborators S H) (inp : Inputs)
    (h : Hackflight S H) :
    (h.checkReceiver c inp).2.filter Event.isGetDemands =
      [Event.receiverGetDemands (h.state.eulerAngles Axis.AXIS_YAW - h.yawInitial)] := by
  unfold Hackflight.checkReceiver
  cases inp.getDemands with
  | none => simp [Event.isGetDemands, List.filter]
  | some rx =>
    simp only [List.filter_append]
    split_ifs <;> simp [Event.isGetDemands, List.filter]

/-- Field-wise persistence over a sequence of cycles, from persistence in one cycle. -/
theorem updates_stale {α : Type} (c : Collaborators S H) (f : State → α) (p : Event → Bool)
    (st : Inputs → Prop)
    (hstep : ∀ (inp : Inputs) (h : Hackflight S H), st inp →
      f (h.update c inp).1.state = f h.state ∧ ∀ e ∈ (h.update c inp).2, p e = false)
    (inps : List Inputs) (h : Hackflight S H) (hst : ∀ inp ∈ inps, st inp) :
    f (Hackflight.updates c inps h).1.state = f h.state ∧
      ∀ e ∈ (Hackflight.updates c inps h).2, p e = false := by
  induction inps generalizing h with
  | nil => exact ⟨rfl, fun e he => by simp [Hackflight.updates] at he⟩
  | cons inp inps ih =>
    have h1 := hstep inp h (hst inp (List.mem_cons_self _ _))
    have h2 := ih (h.update c inp).1 (fun i hi => hst i (List.mem_cons_of_mem _ hi))
    refine ⟨?_, ?_⟩
    · simp only [Hackflight.updates]
      rw [h2.1, h1.1]
    · intro e he
      simp only [Hackflight.updates, List.mem_append] at he
      rcases he with he | he
      · exact h1.2 e he
      · exact h2.2 e he

/-- A cycle without a fresh gyrometer sample does not call `State::updateGyrometer` and
keeps the angular rates. -/
theorem update_stale_gyrometer (c : Collaborators S H) (inp : Inputs) (h : Hackflight S H)
    (hstale : inp.gyrometer = none) :
    (h.update c inp).1.state.angularRates = h.state.angularRates ∧
      ∀ e ∈ (h.update c inp).2, e.isUpdateGyrometer = false := by
  refine ⟨?_, ?_⟩
  · rw [(update_state c inp h).1]
    simp [Hackflight.checkGyroRates, hstale]
  · intro e he
    rcases update_mem c inp h e he with he | he | he | he | he
    · obtain ⟨r, hr, -⟩ := checkGyroRates_mem c inp h e he
      rw [hstale] at hr; cases hr
    · obtain ⟨q, -, hq⟩ := checkQuaternion_mem c inp _ e he
      rcases hq with rfl | ⟨a, rfl⟩ | ⟨b, rfl⟩ | ⟨b, rfl⟩ | rfl <;> rfl
    · rcases checkReceiver_mem c inp _ e he with ⟨y, rfl⟩ | ⟨d, rfl⟩ | rfl | rfl | ⟨b, rfl⟩ <;>
        rfl
    · obtain ⟨a, -, rfl⟩ := checkAccelerometer_mem inp _ e he; rfl
    · obtain ⟨p, -, rfl⟩ := checkBarometer_mem c inp _ e he; rfl

/-- A cycle without a fresh orientation sample does not call `State::updateQuaternion`
and keeps the Euler angles. -/
theorem update_stale_quaternion (c : Collaborators S H) (inp : Inputs) (h : Hackflight S H)
    (hstale : inp.quaternion = none) :
    (h.update c inp).1.state.eulerAngles = h.state.eulerAngles ∧
      ∀ e ∈ (h.update c inp).2, e.isUpdateQuaternion = false := by
  refine ⟨?_, ?_⟩
  · rw [(update_state c inp h).2.1]
    simp [Hackflight.checkQuaternion, hstale, (checkGyroRates_frame c inp h).2.2.1]
  · intro e he
    rcases update_mem c inp h e he with he | he | he | he | he
    · obtain ⟨r, -, hr⟩ := checkGyroRates_mem c inp h e he
      rcases hr with rfl | ⟨d, rfl⟩ | ⟨d, rfl⟩ | ⟨t, rfl⟩ | rfl | rfl | ⟨d, rfl⟩ <;> rfl
    · obtain ⟨q, hq, -⟩ := checkQuaternion_mem c inp _ e he
      rw [hstale] at hq; cases hq
    · rcases checkReceiver_mem c inp _ e he with ⟨y, rfl⟩ | ⟨d, rfl⟩ | rfl | rfl | ⟨b, rfl⟩ <;>
        rfl
    · obtain ⟨a, -, rfl⟩ := checkAccelerometer_mem inp _ e he; rfl
    · obtain ⟨p, -, rfl⟩ := checkBarometer_mem c inp _ e he; rfl

/-- A cycle without a fresh barometer sample does not call `State::updateBarometer` and
keeps the altitude estimate. -/
theorem update_stale_barometer (c : Collaborators S H) (inp : Inputs) (h : Hackflight S H)
    (hstale : inp.barometer = none) :
    (h.update c inp).1.state.altitude = h.state.altitude ∧
      ∀ e ∈ (h.update c inp).2, e.isUpdateBarometer = false := by
  refine ⟨(update_state c inp h).2.2.1 hstale, ?_⟩
  intro e he
  rcases update_mem c inp h e he with he | he | he | he | he
  · obtain ⟨r, -, hr⟩ := checkGyroRates_mem c inp h e he
    rcases hr with rfl | ⟨d, rfl⟩ | ⟨d, rfl⟩ | ⟨t, rfl⟩ | rfl | rfl | ⟨d, rfl⟩ <;> rfl
  · obtain ⟨q, -, hq⟩ := checkQuaternion_mem c inp _ e he
    rcases hq with rfl | ⟨a, rfl⟩ | ⟨b, rfl⟩ | ⟨b, rfl⟩ | rfl <;> rfl
  · rcases checkReceiver_mem c inp _ e he with ⟨y, rfl⟩ | ⟨d, rfl⟩ | rfl | rfl | ⟨b, rfl⟩ <;>
      rfl
  · obtain ⟨a, -, rfl⟩ := checkAccelerometer_mem inp _ e he; rfl
  · obtain ⟨p, hp, -⟩ := checkBarometer_mem c inp _ e he
    rw [hstale] at hp; cases hp

/-- A cycle without a fresh accelerometer sample does not call
`State::updateAccelerometer` and keeps the acceleration. -/
theorem update_stale_accelerometer (c : Collaborators S H) (inp : Inputs)
    (h : Hackflight S H) (hstale : inp.accelerometer = none) :
    (h.update c inp).1.state.accel = h.state.accel ∧
      ∀ e ∈ (h.update c inp).2, e.isUpdateAccelerometer = false := by
  refine ⟨(update_state c inp h).2.2.2 hstale, ?_⟩
  intro e he
  rcases update_mem c inp h e he with he | he | he | he | he
  · obtain ⟨r, -, hr⟩ := checkGyroRates_mem c inp h e he
    rcases hr with rfl | ⟨d, rfl⟩ | ⟨d, rfl⟩ | ⟨t, rfl⟩ | rfl | rfl | ⟨d, rfl⟩ <;> rfl
  · obtain ⟨q, -, hq⟩ := checkQuaternion_mem c inp _ e he
    rcases hq with rfl | ⟨a, rfl⟩ | ⟨b, rfl⟩ | ⟨b, rfl⟩ | rfl <;> rfl
  · rcases checkReceiver_mem c inp _ e he with ⟨y, rfl⟩ | ⟨d, rfl⟩ | rfl | rfl | ⟨b, rfl⟩ <;>
      rfl
  · obtain ⟨a, ha, -⟩ := checkAccelerometer_mem inp _ e he
    rw [hstale] at ha; cases ha
  · obtain ⟨p, -, rfl⟩ := checkBarometer_mem c inp _ e he; rfl

/-- The demands the hover step hands on. -/
theorem runHover_demands (c : Collaborators S H) (h : Hackflight S H) (demands : demands_t) :
    (h.runHover c demands).2.1 =
      match h.hover with
      | some hov =>
        if h.receiver.inHoverMode then (c.hoverModifyDemands hov h.state demands).2
        else demands
      | none => demands := by
  unfold Hackflight.runHover
  cases h.hover with
  | none => rfl
  | some hov => cases h.receiver.inHoverMode <;> rfl

/-- The hover step calls nothing when no hover controller is configured or the receiver
is not in hover mode. -/
theorem runHover_skipped (c : Collaborators S H) (h : Hackflight S H) (demands : demands_t)
    (hskip : h.hover = none ∨ h.receiver.inHoverMode = false) :
    (h.runHover c demands).2.2 = [] := by
  unfold Hackflight.runHover
  cases hh : h.hover with
  | none => rfl
  | some hov =>
    rcases hskip with hnone | hmode
    · rw [hh] at hnone; cases hnone
    · simp [hmode]

/-- The argument of a `runArmed` call of the gyro step. -/
theorem checkGyroRates_runArmed (c : Collaborators S H) (inp : Inputs) (h : Hackflight S H)
    (d : demands_t) (he : Event.mixerRunArmed d ∈ (h.checkGyroRates c inp).2) :
    ∃ gyroRates, inp.gyrometer = some gyroRates ∧ d = h.specDemands c gyroRates := by
  cases hg : inp.gyrometer with
  | none => simp [Hackflight.checkGyroRates, hg] at he
  | some gyroRates =>
    refine ⟨gyroRates, rfl, ?_⟩
    have hev := (runHover_frame c
      { h with state := h.state.updateGyrometer gyroRates,
               stabilizer := (c.stabilizerModifyDemands h.stabilizer gyroRates
                 h.receiver.demands).1 }
      (c.stabilizerModifyDemands h.stabilizer gyroRates h.receiver.demands).2).2.2.2.2.2
    have hd := runHover_demands c
      { h with state := h.state.updateGyrometer gyroRates,
               stabilizer := (c.stabilizerModifyDemands h.stabilizer gyroRates
                 h.receiver.demands).1 }
      (c.stabilizerModifyDemands h.stabilizer gyroRates h.receiver.demands).2
    simp only [Hackflight.checkGyroRates, hg, List.mem_append, List.mem_cons,
      List.mem_singleton, List.not_mem_nil, or_false] at he
    rcases he with ((((he | he) | he) | he) | he) | he
    · cases he
    · cases he
    · obtain ⟨d', hd'⟩ := hev _ he
      cases hd'
    · cases he
    · exact absurd ((checkFailsafe_frame inp _).2.2.2.2.2.2 _ he) (by simp [Event.isRunArmed])
    · unfold Hackflight.runMotors at he
      have := eq_of_mem_ite he
      simp only [Event.mixerRunArmed.injEq] at this
      rw [this, hd]
      rfl

/-- The gyro step does not call `Hover::modifyDemands` when no hover controller is
configured or the receiver is not in hover mode. -/
theorem checkGyroRates_hover_skipped (c : Collaborators S H) (inp : Inputs)
    (h : Hackflight S H) (hskip : h.hover = none ∨ h.receiver.inHoverMode = false)
    (d : demands_t) : Event.hoverModifyDemands d ∉ (h.checkGyroRates c inp).2 := by
  intro he
  cases hg : inp.gyrometer with
  | none => simp [Hackflight.checkGyroRates, hg] at he
  | some gyroRates =>
    have hsk := runHover_skipped c
      { h with state := h.state.updateGyrometer gyroRates,
               stabilizer := (c.stabilizerModifyDemands h.stabilizer gyroRates
                 h.receiver.demands).1 }
      (c.stabilizerModifyDemands h.stabilizer gyroRates h.receiver.demands).2 hskip
    simp only [Hackflight.checkGyroRates, hg, hsk, List.append_nil, List.mem_append,
      List.mem_cons, List.mem_singleton, List.not_mem_nil, or_false] at he
    rcases he with (((he | he) | he) | he) | he
    · cases he
    · cases he
    · cases he
    · unfold Hackflight.checkFailsafe at he
      split_ifs at he
      · simp at he
      · simp at he
    · unfold Hackflight.runMotors at he
      have := eq_of_mem_ite he
      cases this

/-- The hover step calls `Hover::modifyDemands` at most once, with the demands it is
given. -/
theorem runHover_mem (c : Collaborators S H) (h : Hackflight S H) (demands : demands_t)
    (e : Event) (he : e ∈ (h.runHover c demands).2.2) :
    e = Event.hoverModifyDemands demands := by
  unfold Hackflight.runHover at he
  cases hh : h.hover with
  | none => simp [hh] at he
  | some hov =>
    cases hm : h.receiver.inHoverMode with
    | false => simp [hh, hm] at he
    | true => simpa [hh, hm] using he

/-- The argument of a `Hover::modifyDemands` call of the gyro step is what the
stabilizer made of the receiver's demands. -/
theorem checkGyroRates_hover_arg (c : Collaborators S H) (inp : Inputs) (h : Hackflight S H)
    (d : demands_t) (he : Event.hoverModifyDemands d ∈ (h.checkGyroRates c inp).2) :
    ∃ gyroRates, inp.gyrometer = some gyroRates ∧
      d = (c.stabilizerModifyDemands h.stabilizer gyroRates h.receiver.demands).2 := by
  cases hg : inp.gyrometer with
  | none => simp [Hackflight.checkGyroRates, hg] at he
  | some gyroRates =>
    refine ⟨gyroRates, rfl, ?_⟩
    simp only [Hackflight.checkGyroRates, hg, List.mem_append, List.mem_cons,
      List.mem_singleton, List.not_mem_nil, or_false] at he
    rcases he with ((((he | he) | he) | he) | he) | he
    · cases he
    · cases he
    · have := runHover_mem c _ _ _ he
      simp only [Event.hoverModifyDemands.injEq] at this
      exact this
    · cases he
    · unfold Hackflight.checkFailsafe at he
      split_ifs at he
      · simp at he
      · simp at he
    · unfold Hackflight.runMotors at he
      have := eq_of_mem_ite he
      cases this

/-- Only the gyro step calls `Hover::modifyDemands`. -/
theorem update_hover_mem (c : Collaborators S H) (inp : Inputs) (h : Hackflight S H)
    (d : demands_t) (he : Event.hoverModifyDemands d ∈ (h.update c inp).2) :
    Event.hoverModifyDemands d ∈ (h.checkGyroRates c inp).2 := by
  rcases update_mem c inp h _ he with he | he | he | he | he
  · exact he
  · obtain ⟨q, -, hq⟩ := checkQuaternion_mem c inp _ _ he
    rcases hq with hq | ⟨a, hq⟩ | ⟨b, hq⟩ | ⟨b, hq⟩ | hq <;> cases hq
  · rcases checkReceiver_mem c inp _ _ he with ⟨y, hr⟩ | ⟨d', hr⟩ | hr | hr | ⟨b, hr⟩ <;>
      cases hr
  · obtain ⟨a, -, ha⟩ := checkAccelerometer_mem inp _ _ he; cases ha
  · obtain ⟨p, -, hp⟩ := checkBarometer_mem c inp _ _ he; cases hp

/-- Only the gyro step calls `Mixer::runArmed`. -/
theorem update_runArmed_mem (c : Collaborators S H) (inp : Inputs) (h : Hackflight S H)
    (d : demands_t) (he : Event.mixerRunArmed d ∈ (h.update c inp).2) :
    Event.mixerRunArmed d ∈ (h.checkGyroRates c inp).2 := by
  rcases update_mem c inp h _ he with he | he | he | he | he
  · exact he
  · exact absurd (checkQuaternion_no_runArmed c inp _ _ he) (by simp [Event.isRunArmed])
  · exact absurd (checkReceiver_no_runArmed c inp _ _ he) (by simp [Event.isRunArmed])
  · exact absurd (checkAccelerometer_no_runArmed inp _ _ he) (by simp [Event.isRunArmed])
  · exact absurd (checkBarometer_no_runArmed c inp _ _ he) (by simp [Event.isRunArmed])

/-- A list none of whose calls is `runDisarmed` has an empty `runDisarmed` filter. -/
theorem filter_isRunDisarmed_nil (l : List Event)
    (hl : ∀ e ∈ l, e.isRunDisarmed = false) : l.filter Event.isRunDisarmed = [] := by
  rw [List.filter_eq_nil_iff]
  intro e he
  simp [hl e he]

/-- The serial relay calls `runDisarmed` once if the orchestrator is disarmed, and not
at all if it is armed. -/
theorem doSerialComms_runDisarmed (inp : Inputs) (h : Hackflight S H) :
    (h.doSerialComms inp).filter Event.isRunDisarmed =
      if h.state.armed then [] else [Event.mixerRunDisarmed] := by
  have h1 : (inp.serialBytes.map Event.mspUpdate).filter Event.isRunDisarmed = [] := by
    apply filter_isRunDisarmed_nil
    intro e he
    obtain ⟨b, -, rfl⟩ := List.mem_map.mp he
    rfl
  have h2 : (inp.mspBytes.map Event.boardSerialWriteByte).filter Event.isRunDisarmed
      = [] := by
    apply filter_isRunDisarmed_nil
    intro e he
    obtain ⟨b, -, rfl⟩ := List.mem_map.mp he
    rfl
  simp only [Hackflight.doSerialComms, List.filter_append, h1, h2, List.nil_append]
  cases h.state.armed <;> simp [Event.isRunDisarmed, List.filter]

/-- The orientation step calls `runDisarmed` once if the sample is fresh and the
orchestrator is disarmed, and not at all otherwise. -/
theorem checkQuaternion_runDisarmed (c : Collaborators S H) (inp : Inputs)
    (h : Hackflight S H) :
    (h.checkQuaternion c inp).2.filter Event.isRunDisarmed =
      if inp.quaternion.isSome && !h.state.armed then [Event.mixerRunDisarmed] else [] := by
  unfold Hackflight.checkQuaternion
  cases inp.quaternion with
  | none => simp
  | some q =>
    simp only [List.filter_append, doSerialComms_runDisarmed, State.updateQuaternion]
    cases h.state.armed <;> simp [Event.isRunDisarmed, List.filter]

/-- The calls of a cycle that are `runDisarmed` are those of its orientation step. -/
theorem update_runDisarmed (c : Collaborators S H) (inp : Inputs) (h : Hackflight S H) :
    (h.update c inp).2.filter Event.isRunDisarmed =
      ((h.checkGyroRates c inp).1.checkQuaternion c inp).2.filter Event.isRunDisarmed := by
  have hg : (h.checkGyroRates c inp).2.filter Event.isRunDisarmed = [] := by
    apply filter_isRunDisarmed_nil
    intro e he
    obtain ⟨r, -, hr⟩ := checkGyroRates_mem c inp h e he
    rcases hr with rfl | ⟨d, rfl⟩ | ⟨d, rfl⟩ | ⟨t, rfl⟩ | rfl | rfl | ⟨d, rfl⟩ <;> rfl
  have hr : ∀ x : Hackflight S H, (x.checkReceiver c inp).2.filter Event.isRunDisarmed
      = [] := by
    intro x
    apply filter_isRunDisarmed_nil
    intro e he
    rcases checkReceiver_mem c inp x e he with ⟨y, rfl⟩ | ⟨d, rfl⟩ | rfl | rfl | ⟨b, rfl⟩ <;>
      rfl
  have ha : ∀ x : Hackflight S H, (x.checkAccelerometer inp).2.filter Event.isRunDisarmed
      = [] := by
    intro x
    apply filter_isRunDisarmed_nil
    intro e he
    obtain ⟨a, -, rfl⟩ := checkAccelerometer_mem inp x e he
    rfl
  have hb : ∀ x : Hackflight S H, (x.checkBarometer c inp).2.filter Event.isRunDisarmed
      = [] := by
    intro x
    apply filter_isRunDisarmed_nil
    intro e he
    obtain ⟨p, -, rfl⟩ := checkBarometer_mem c inp x e he
    rfl
  simp only [Hackflight.update, List.filter_append, hg, hr, ha, hb, List.nil_append,
    List.append_nil]

/-- Without a fresh gyrometer sample the gyro step does nothing and calls nothing. -/
theorem checkGyroRates_stale (c : Collaborators S H) (inp : Inputs) (h : Hackflight S H)
    (hstale : inp.gyrometer = none) : h.checkGyroRates c inp = (h, []) := by
  simp [Hackflight.checkGyroRates, hstale]

/-! ## The claims -/

/-- C1: for every orchestrator state with `armed = false` and every receiver report, if
the roll or the pitch Euler angle satisfies `|angle| >= maxArmingAngle` when
`checkReceiver` runs, then `armed` is still false after the check. -/
theorem C1_unsafe_angle_never_arms (c : Collaborators S H) (inp : Inputs) (h : Hackflight S H)
    (harmed : h.state.armed = false)
    (hangle : c.maxArmingAngle ≤ |h.state.eulerAngles Axis.AXIS_ROLL| ∨
      c.maxArmingAngle ≤ |h.state.eulerAngles Axis.AXIS_PITCH|) :
    (h.checkReceiver c inp).1.state.armed = false := by
  cases hrx : inp.getDemands with
  | none => rw [checkReceiver_stale c inp h hrx]; exact harmed
  | some rx =>
    rw [checkReceiver_armed c inp h rx hrx]
    rcases hangle with hr | hp
    · simp [harmed, Hackflight.safeAngle, not_lt.mpr hr]
    · simp [harmed, Hackflight.safeAngle, not_lt.mpr hp]

/-- C1 at a roll angle equal to `maxArmingAngle`, fresh demands with an arm gesture,
failsafe false. -/
theorem C1_unsafe_angle_never_arms_witness :
    (sampleHackflight 1 0 0 false false 0).state.armed = false ∧
      (receiverOnly (some (sampleReceiver true true false))).getDemands
        = some (sampleReceiver true true false) ∧
      (sampleReceiver true true false).arming = true ∧
      (sampleHackflight 1 0 0 false false 0).failsafe = false ∧
      (sampleCollaborators.maxArmingAngle ≤
          |(sampleHackflight 1 0 0 false false 0).state.eulerAngles Axis.AXIS_ROLL| ∨
        sampleCollaborators.maxArmingAngle ≤
          |(sampleHackflight 1 0 0 false false 0).state.eulerAngles Axis.AXIS_PITCH|) ∧
      ((sampleHackflight 1 0 0 false false 0).checkReceiver sampleCollaborators
        (receiverOnly (some (sampleReceiver true true false)))).1.state.armed = false :=
  ⟨rfl, rfl, rfl, rfl, Or.inl (by simp [sampleCollaborators, sampleHackflight]),
    C1_unsafe_angle_never_arms sampleCollaborators
      (receiverOnly (some (sampleReceiver true true false)))
      (sampleHackflight 1 0 0 false false 0) rfl
      (Or.inl (by simp [sampleCollaborators, sampleHackflight]))⟩

/-- C2: for every state with `failsafe = true` and `armed = false`, and every finite
sequence of update cycles with arbitrary inputs, `failsafe` is still true and `armed`
is still false after the sequence. -/
theorem C2_failsafe_is_sticky (c : Collaborators S H) (inps : List Inputs)
    (h : Hackflight S H) (hfs : h.failsafe = true) (harmed : h.state.armed = false) :
    (Hackflight.updates c inps h).1.failsafe = true ∧
      (Hackflight.updates c inps h).1.state.armed = false := by
  induction inps generalizing h with
  | nil => exact ⟨hfs, harmed⟩
  | cons inp inps ih =>
    have hu := update_failsafe_disarmed c inp h hfs harmed
    exact ih (h.update c inp).1 hu.1 hu.2

/-- C2 on two cycles that each carry an arm gesture at roll 0 and pitch 0. -/
theorem C2_failsafe_is_sticky_witness :
    (sampleHackflight 0 0 0 false true 0).failsafe = true ∧
      (sampleHackflight 0 0 0 false true 0).state.armed = false ∧
      (Hackflight.updates sampleCollaborators
        [receiverOnly (some (sampleReceiver true true false)),
          receiverOnly (some (sampleReceiver true true false))]
        (sampleHackflight 0 0 0 false true 0)).1.failsafe = true ∧
      (Hackflight.updates sampleCollaborators
        [receiverOnly (some (sampleReceiver true true false)),
          receiverOnly (some (sampleReceiver true true false))]
        (sampleHackflight 0 0 0 false true 0)).1.state.armed = false :=
  ⟨rfl, rfl, C2_failsafe_is_sticky sampleCollaborators _ _ rfl rfl⟩

/-- C3: in every update cycle that starts with `armed = true`, in which the board
delivers a fresh gyrometer sample and the receiver reports lost signal, the gyro step
leaves `armed = false` and `failsafe = true`; the calls of the cycle contain
`cutMotors` directly followed by `showArmedStatus(false)` with no mixer call before
them; `runArmed` is not called in the cycle; `armed` is false at its end. -/
theorem C3_lost_signal_cuts_motors (c : Collaborators S H) (inp : Inputs)
    (h : Hackflight S H) (gyroRates : Vec3) (harmed : h.state.armed = true)
    (hg : inp.gyrometer = some gyroRates) (hl : inp.lostSignal = true) :
    (h.checkGyroRates c inp).1.state.armed = false ∧
      (h.checkGyroRates c inp).1.failsafe = true ∧
      (∃ pre post : List Event, (∀ e ∈ pre, e.isMixer = false) ∧
        (h.update c inp).2 =
          pre ++ [Event.mixerCutMotors, Event.boardShowArmedStatus false] ++ post) ∧
      (∀ e ∈ (h.update c inp).2, e.isRunArmed = false) ∧
      (h.update c inp).1.state.armed = false ∧
      (h.update c inp).1.failsafe = true := by
  obtain ⟨ha, hf, pre, hpre, hev⟩ := checkGyroRates_lostSignal c inp h gyroRates harmed hg hl
  have hq := checkQuaternion_frame c inp (h.checkGyroRates c inp).1
  have hfl := update_flags c inp h
  obtain ⟨post, hpost⟩ := update_events c inp h
  refine ⟨ha, hf, ⟨pre, post, hpre, ?_⟩, ?_, ?_, ?_⟩
  · rw [hpost, hev]
  · apply update_no_runArmed_of_gyro
    intro e he
    rw [hev] at he
    simp only [List.mem_append, List.mem_cons, List.mem_singleton, List.not_mem_nil,
      or_false] at he
    rcases he with he | rfl | rfl
    · exact isRunArmed_false_of_isMixer_false (hpre e he)
    · rfl
    · rfl
  · rw [hfl.1]
    exact checkReceiver_failsafe_disarmed c inp _ (by rw [hq.1]; exact ha)
      (by rw [hq.2.1]; exact hf)
  · rw [hfl.2.1, checkReceiver_failsafe, hq.2.1]; exact hf

/-- C3 on an armed, level orchestrator. -/
theorem C3_lost_signal_cuts_motors_witness :
    (sampleHackflight 0 0 0 true false 0).state.armed = true ∧
      lostSignalCycle.gyrometer = some zeroVec3 ∧
      lostSignalCycle.lostSignal = true ∧
      ((sampleHackflight 0 0 0 true false 0).checkGyroRates sampleCollaborators
        lostSignalCycle).1.state.armed = false ∧
      ((sampleHackflight 0 0 0 true false 0).checkGyroRates sampleCollaborators
        lostSignalCycle).1.failsafe = true ∧
      (∃ pre post : List Event, (∀ e ∈ pre, e.isMixer = false) ∧
        ((sampleHackflight 0 0 0 true false 0).update sampleCollaborators lostSignalCycle).2 =
          pre ++ [Event.mixerCutMotors, Event.boardShowArmedStatus false] ++ post) ∧
      (∀ e ∈ ((sampleHackflight 0 0 0 true false 0).update sampleCollaborators
        lostSignalCycle).2, e.isRunArmed = false) ∧
      ((sampleHackflight 0 0 0 true false 0).update sampleCollaborators
        lostSignalCycle).1.state.armed = false ∧
      ((sampleHackflight 0 0 0 true false 0).update sampleCollaborators
        lostSignalCycle).1.failsafe = true :=
  ⟨rfl, rfl, rfl,
    C3_lost_signal_cuts_motors sampleCollaborators lostSignalCycle
      (sampleHackflight 0 0 0 true false 0) zeroVec3 rfl rfl rfl⟩

/-- C4: if the receiver's `throttleIsDown()` holds when the gyro step decides on motor
drive, `runArmed` is not called in that cycle, whatever the arming flag and the demands
are; and over any number of consecutive cycles in which throttle stays down (every
fresh receiver report has throttle down), `runArmed` is never called. -/
theorem C4_throttle_down_never_runs_armed (c : Collaborators S H) (h : Hackflight S H)
    (hdown : h.receiver.throttleIsDown = true) :
    (∀ inp : Inputs, ∀ e ∈ (h.update c inp).2, e.isRunArmed = false) ∧
      (∀ inps : List Inputs,
        (∀ inp ∈ inps, ∀ rx, inp.getDemands = some rx → rx.throttleIsDown = true) →
        ∀ e ∈ (Hackflight.updates c inps h).2, e.isRunArmed = false) :=
  ⟨fun inp => update_no_runArmed_of_gyro c inp h (checkGyroRates_throttleDown c inp h hdown),
    fun inps hrx => updates_throttleDown c inps h hdown hrx⟩

/-- C4 on an armed orchestrator with throttle down, over one cycle and over three
cycles with full roll demand. -/
theorem C4_throttle_down_never_runs_armed_witness :
    (sampleHackflight 0 0 0 true false 0).receiver.throttleIsDown = true ∧
      (sampleHackflight 0 0 0 true false 0).state.armed = true ∧
      (∀ e ∈ ((sampleHackflight 0 0 0 true false 0).update sampleCollaborators
        throttleDownCycle).2, e.isRunArmed = false) ∧
      (∀ e ∈ (Hackflight.updates sampleCollaborators
        [throttleDownCycle, throttleDownCycle, throttleDownCycle]
        (sampleHackflight 0 0 0 true false 0)).2, e.isRunArmed = false) :=
  ⟨rfl, rfl,
    (C4_throttle_down_never_runs_armed sampleCollaborators
      (sampleHackflight 0 0 0 true false 0) rfl).1 throttleDownCycle,
    (C4_throttle_down_never_runs_armed sampleCollaborators
      (sampleHackflight 0 0 0 true false 0) rfl).2
      [throttleDownCycle, throttleDownCycle, throttleDownCycle]
      (by
        intro inp hinp rx hrx
        simp only [List.mem_cons, List.mem_singleton, List.not_mem_nil, or_false,
          or_self] at hinp
        subst hinp
        simp only [throttleDownCycle, Option.some.injEq] at hrx
        subst hrx
        rfl)⟩

/-- C5: for every receiver check in which the receiver delivers fresh demands, `armed`
is true on entry, no disarm gesture is reported and throttle is down, `cutMotors` is
called exactly once by that check, whatever the demands are. -/
theorem C5_throttle_down_cut_once (c : Collaborators S H) (inp : Inputs)
    (h : Hackflight S H) (rx : Receiver) (hrx : inp.getDemands = some rx)
    (harmed : h.state.armed = true) (hdis : rx.disarming = false)
    (hdown : rx.throttleIsDown = true) :
    ((h.checkReceiver c inp).2.filter Event.isCutMotors).length = 1 := by
  obtain ⟨rcv, stab, hov, ⟨eul, rates, alt, acc, armed⟩, fs, yi⟩ := h
  obtain ⟨d, tid, arming, disarming, hm⟩ := rx
  simp only at harmed hdis hdown
  subst harmed hdis hdown
  simp [Hackflight.checkReceiver, hrx, Hackflight.arm, Hackflight.disarm, Event.isCutMotors,
    List.filter]

/-- C5 on an armed orchestrator, with throttle down and full roll demand. -/
theorem C5_throttle_down_cut_once_witness :
    throttleDownCycle.getDemands = some ⟨⟨1, 0, 0, 0, 0⟩, true, false, false, false⟩ ∧
      (sampleHackflight 0 0 0 true false 0).state.armed = true ∧
      (((sampleHackflight 0 0 0 true false 0).checkReceiver sampleCollaborators
        throttleDownCycle).2.filter Event.isCutMotors).length = 1 :=
  ⟨rfl, rfl,
    C5_throttle_down_cut_once sampleCollaborators throttleDownCycle
      (sampleHackflight 0 0 0 true false 0) ⟨⟨1, 0, 0, 0, 0⟩, true, false, false, false⟩
      rfl rfl rfl rfl⟩

/-- C6: for every state with `armed = false`, `failsafe = false` and roll and pitch
Euler angles of absolute value strictly below `maxArmingAngle`, a receiver check with
fresh demands and an arm gesture sets `armed = true`, sets `yawInitial` to the current
yaw Euler angle, and calls `showArmedStatus` exactly once, with argument true. -/
theorem C6_arm_at_safe_attitude (c : Collaborators S H) (inp : Inputs)
    (h : Hackflight S H) (rx : Receiver) (hrx : inp.getDemands = some rx)
    (harming : rx.arming = true) (harmed : h.state.armed = false)
    (hfs : h.failsafe = false)
    (hroll : |h.state.eulerAngles Axis.AXIS_ROLL| < c.maxArmingAngle)
    (hpitch : |h.state.eulerAngles Axis.AXIS_PITCH| < c.maxArmingAngle) :
    (h.checkReceiver c inp).1.state.armed = true ∧
      (h.checkReceiver c inp).1.yawInitial = h.state.eulerAngles Axis.AXIS_YAW ∧
      (h.checkReceiver c inp).2.filter Event.isShowArmedStatus
        = [Event.boardShowArmedStatus true] := by
  obtain ⟨rcv, stab, hov, ⟨eul, rates, alt, acc, armed⟩, fs, yi⟩ := h
  obtain ⟨d, tid, arming, disarming, hm⟩ := rx
  simp only at harming harmed hfs hroll hpitch
  subst harming harmed hfs
  cases tid <;>
    simp [Hackflight.checkReceiver, hrx, Hackflight.arm, Hackflight.disarm,
      Hackflight.safeAngle, hroll, hpitch, Event.isShowArmedStatus, List.filter]

/-- C6 at roll 0, pitch 0, yaw 1/2, throttle down. -/
theorem C6_arm_at_safe_attitude_witness :
    (receiverOnly (some (sampleReceiver true true false))).getDemands
        = some (sampleReceiver true true false) ∧
      ((sampleHackflight 0 0 (1 / 2) false false 0).checkReceiver sampleCollaborators
        (receiverOnly (some (sampleReceiver true true false)))).1.state.armed = true ∧
      ((sampleHackflight 0 0 (1 / 2) false false 0).checkReceiver sampleCollaborators
        (receiverOnly (some (sampleReceiver true true false)))).1.yawInitial = 1 / 2 ∧
      ((sampleHackflight 0 0 (1 / 2) false false 0).checkReceiver sampleCollaborators
        (receiverOnly (some (sampleReceiver true true false)))).2.filter
          Event.isShowArmedStatus = [Event.boardShowArmedStatus true] :=
  ⟨rfl,
    C6_arm_at_safe_attitude sampleCollaborators
      (receiverOnly (some (sampleReceiver true true false)))
      (sampleHackflight 0 0 (1 / 2) false false 0) (sampleReceiver true true false)
      rfl rfl rfl rfl
      (by simp [sampleCollaborators, sampleHackflight])
      (by simp [sampleCollaborators, sampleHackflight])⟩

/-- C7: every receiver check calls `Receiver::getDemands` exactly once, with the
argument current yaw Euler angle minus `yawInitial`; after any sequence of cycles
`yawInitial` is the yaw held at the most recent arm transition (its initial value if
there was none); and arming at yaw 30, then holding yaw 45, passes the offset 15 on the
next demand fetch. -/
theorem C7_headless_yaw_offset (c : Collaborators S H) :
    (∀ (inp : Inputs) (h : Hackflight S H),
      (h.checkReceiver c inp).2.filter Event.isGetDemands =
        [Event.receiverGetDemands (h.state.eulerAngles Axis.AXIS_YAW - h.yawInitial)]) ∧
      (∀ (inps : List Inputs) (h : Hackflight S H),
        (Hackflight.updates c inps h).1.yawInitial =
          (Hackflight.lastArmYaw c inps h).getD h.yawInitial) ∧
      Hackflight.lastArmYaw sampleCollaborators
        [receiverOnly (some (sampleReceiver true true false))]
        (sampleHackflight 0 0 30 false false 0) = some 30 ∧
      ((Hackflight.updates sampleCollaborators
        [receiverOnly (some (sampleReceiver true true false))]
        (sampleHackflight 0 0 30 false false 0)).1.update sampleCollaborators
        yaw45Cycle).2.filter Event.isGetDemands = [Event.receiverGetDemands 15] := by
  refine ⟨checkReceiver_getDemands c, updates_yawInitial c, ?_, ?_⟩
  · simp [Hackflight.lastArmYaw, Hackflight.yawAtArm, Hackflight.armsInCheck,
      Hackflight.checkGyroRates, Hackflight.checkQuaternion, Hackflight.checkReceiver,
      Hackflight.arm, Hackflight.disarm, Hackflight.safeAngle, receiverOnly, sampleReceiver,
      sampleHackflight, sampleCollaborators]
  · simp [Hackflight.updates, Hackflight.update, Hackflight.checkAccelerometer,
      Hackflight.checkBarometer, Hackflight.doSerialComms, State.updateQuaternion,
      Hackflight.checkGyroRates, Hackflight.checkQuaternion, Hackflight.checkReceiver,
      Hackflight.arm, Hackflight.disarm, Hackflight.safeAngle, receiverOnly, sampleReceiver,
      sampleHackflight, sampleCollaborators, yaw45Cycle, Event.isGetDemands, List.filter]
    norm_num

/-- C8: over any sequence of update cycles in none of which the board reports a fresh
gyrometer sample (respectively orientation, barometer, accelerometer sample), the
orchestrator never calls the corresponding vehicle-state update and the angular rates
(respectively Euler angles, altitude estimate, acceleration) are the same after the
sequence as before it. -/
theorem C8_stale_sample_skip (c : Collaborators S H) (inps : List Inputs)
    (h : Hackflight S H) :
    ((∀ inp ∈ inps, inp.gyrometer = none) →
        (Hackflight.updates c inps h).1.state.angularRates = h.state.angularRates ∧
        ∀ e ∈ (Hackflight.updates c inps h).2, e.isUpdateGyrometer = false) ∧
      ((∀ inp ∈ inps, inp.quaternion = none) →
        (Hackflight.updates c inps h).1.state.eulerAngles = h.state.eulerAngles ∧
        ∀ e ∈ (Hackflight.updates c inps h).2, e.isUpdateQuaternion = false) ∧
      ((∀ inp ∈ inps, inp.barometer = none) →
        (Hackflight.updates c inps h).1.state.altitude = h.state.altitude ∧
        ∀ e ∈ (Hackflight.updates c inps h).2, e.isUpdateBarometer = false) ∧
      ((∀ inp ∈ inps, inp.accelerometer = none) →
        (Hackflight.updates c inps h).1.state.accel = h.state.accel ∧
        ∀ e ∈ (Hackflight.updates c inps h).2, e.isUpdateAccelerometer = false) :=
  ⟨updates_stale c (fun s => s.angularRates) Event.isUpdateGyrometer
      (fun inp => inp.gyrometer = none) (update_stale_gyrometer c) inps h,
    updates_stale c (fun s => s.eulerAngles) Event.isUpdateQuaternion
      (fun inp => inp.quaternion = none) (update_stale_quaternion c) inps h,
    updates_stale c (fun s => s.altitude) Event.isUpdateBarometer
      (fun inp => inp.barometer = none) (update_stale_barometer c) inps h,
    updates_stale c (fun s => s.accel) Event.isUpdateAccelerometer
      (fun inp => inp.accelerometer = none) (update_stale_accelerometer c) inps h⟩

/-- C8 on two cycles: one with a fresh gyrometer sample and lost signal but no other
fresh sensor, one with a fresh orientation sample only. The orientation is stale in the
first, the gyrometer in the second, the barometer and accelerometer in both. -/
theorem C8_stale_sample_skip_witness :
    ((Hackflight.updates sampleCollaborators [yaw45Cycle]
          (sampleHackflight 0 0 0 true false 0)).1.state.angularRates
        = (sampleHackflight 0 0 0 true false 0).state.angularRates ∧
      ∀ e ∈ (Hackflight.updates sampleCollaborators [yaw45Cycle]
          (sampleHackflight 0 0 0 true false 0)).2, e.isUpdateGyrometer = false) ∧
    ((Hackflight.updates sampleCollaborators [lostSignalCycle]
          (sampleHackflight 0 0 0 true false 0)).1.state.eulerAngles
        = (sampleHackflight 0 0 0 true false 0).state.eulerAngles ∧
      ∀ e ∈ (Hackflight.updates sampleCollaborators [lostSignalCycle]
          (sampleHackflight 0 0 0 true false 0)).2, e.isUpdateQuaternion = false) ∧
    ((Hackflight.updates sampleCollaborators [lostSignalCycle, yaw45Cycle]
          (sampleHackflight 0 0 0 true false 0)).1.state.altitude
        = (sampleHackflight 0 0 0 true false 0).state.altitude ∧
      ∀ e ∈ (Hackflight.updates sampleCollaborators [lostSignalCycle, yaw45Cycle]
          (sampleHackflight 0 0 0 true false 0)).2, e.isUpdateBarometer = false) ∧
    ((Hackflight.updates sampleCollaborators [lostSignalCycle, yaw45Cycle]
          (sampleHackflight 0 0 0 true false 0)).1.state.accel
        = (sampleHackflight 0 0 0 true false 0).state.accel ∧
      ∀ e ∈ (Hackflight.updates sampleCollaborators [lostSignalCycle, yaw45Cycle]
          (sampleHackflight 0 0 0 true false 0)).2, e.isUpdateAccelerometer = false) :=
  ⟨(C8_stale_sample_skip sampleCollaborators [yaw45Cycle]
      (sampleHackflight 0 0 0 true false 0)).1 (by simp [yaw45Cycle]),
    (C8_stale_sample_skip sampleCollaborators [lostSignalCycle]
      (sampleHackflight 0 0 0 true false 0)).2.1 (by simp [lostSignalCycle]),
    (C8_stale_sample_skip sampleCollaborators [lostSignalCycle, yaw45Cycle]
      (sampleHackflight 0 0 0 true false 0)).2.2.1 (by simp [lostSignalCycle, yaw45Cycle]),
    (C8_stale_sample_skip sampleCollaborators [lostSignalCycle, yaw45Cycle]
      (sampleHackflight 0 0 0 true false 0)).2.2.2 (by simp [lostSignalCycle, yaw45Cycle])⟩

/-- C10: for every receiver check with fresh demands in which the receiver reports an
arm gesture and no disarm gesture: if `armed` is already true, or `failsafe` is true, or
the roll or pitch Euler angle is not strictly within `maxArmingAngle`, then `armed`,
`failsafe` and `yawInitial` have the same values after the check as before it. -/
theorem C10_rejected_arm_attempt (c : Collaborators S H) (inp : Inputs)
    (h : Hackflight S H) (rx : Receiver) (hrx : inp.getDemands = some rx)
    (harming : rx.arming = true) (hdis : rx.disarming = false)
    (hrej : h.state.armed = true ∨ h.failsafe = true ∨
      ¬ |h.state.eulerAngles Axis.AXIS_ROLL| < c.maxArmingAngle ∨
      ¬ |h.state.eulerAngles Axis.AXIS_PITCH| < c.maxArmingAngle) :
    (h.checkReceiver c inp).1.state.armed = h.state.armed ∧
      (h.checkReceiver c inp).1.failsafe = h.failsafe ∧
      (h.checkReceiver c inp).1.yawInitial = h.yawInitial := by
  obtain ⟨rcv, stab, hov, ⟨eul, rates, alt, acc, armed⟩, fs, yi⟩ := h
  obtain ⟨d, tid, arming, disarming, hm⟩ := rx
  simp only at harming hdis hrej
  subst harming hdis
  simp only [Hackflight.checkReceiver, hrx, Hackflight.arm, Hackflight.disarm,
    Hackflight.safeAngle]
  by_cases h1 : |eul Axis.AXIS_ROLL| < c.maxArmingAngle <;>
    by_cases h2 : |eul Axis.AXIS_PITCH| < c.maxArmingAngle <;>
    cases armed <;> cases fs <;> cases tid <;> simp [h1, h2] at hrej ⊢

/-- C10 on a level, disarmed orchestrator in failsafe with `yawInitial = 1/4` and yaw
1/2: the arm gesture changes nothing. -/
theorem C10_rejected_arm_attempt_witness :
    (receiverOnly (some (sampleReceiver true true false))).getDemands
        = some (sampleReceiver true true false) ∧
      (sampleHackflight 0 0 (1 / 2) false true (1 / 4)).failsafe = true ∧
      ((sampleHackflight 0 0 (1 / 2) false true (1 / 4)).checkReceiver sampleCollaborators
        (receiverOnly (some (sampleReceiver true true false)))).1.state.armed = false ∧
      ((sampleHackflight 0 0 (1 / 2) false true (1 / 4)).checkReceiver sampleCollaborators
        (receiverOnly (some (sampleReceiver true true false)))).1.failsafe = true ∧
      ((sampleHackflight 0 0 (1 / 2) false true (1 / 4)).checkReceiver sampleCollaborators
        (receiverOnly (some (sampleReceiver true true false)))).1.yawInitial = 1 / 4 :=
  ⟨rfl, rfl,
    C10_rejected_arm_attempt sampleCollaborators
      (receiverOnly (some (sampleReceiver true true false)))
      (sampleHackflight 0 0 (1 / 2) false true (1 / 4)) (sampleReceiver true true false)
      rfl rfl rfl (Or.inr (Or.inl rfl))⟩

/-- C11: in every update cycle in which `Mixer::runArmed` is called, its argument is a
copy of the receiver's stored demands passed first through `Stabilizer::modifyDemands`
with the gyrometer sample and then, if and only if a hover controller is configured and
the receiver reports hover mode, through `Hover::modifyDemands` with the vehicle state;
a call of `Hover::modifyDemands` gets the stabilizer's result; `Hover::modifyDemands` is
never called when no hover controller is configured or the receiver is not in hover
mode; and the gyro step leaves the receiver's stored demands as they are. -/
theorem C11_runArmed_demands (c : Collaborators S H) (inp : Inputs) (h : Hackflight S H) :
    (∀ d, Event.mixerRunArmed d ∈ (h.update c inp).2 →
        ∃ gyroRates, inp.gyrometer = some gyroRates ∧ d = h.specDemands c gyroRates) ∧
      (∀ d, Event.hoverModifyDemands d ∈ (h.update c inp).2 →
        ∃ gyroRates, inp.gyrometer = some gyroRates ∧
          d = (c.stabilizerModifyDemands h.stabilizer gyroRates h.receiver.demands).2) ∧
      ((h.hover = none ∨ h.receiver.inHoverMode = false) →
        ∀ d, Event.hoverModifyDemands d ∉ (h.update c inp).2) ∧
      (h.checkGyroRates c inp).1.receiver = h.receiver :=
  ⟨fun d he => checkGyroRates_runArmed c inp h d (update_runArmed_mem c inp h d he),
    fun d he => checkGyroRates_hover_arg c inp h d (update_hover_mem c inp h d he),
    fun hskip d he =>
      checkGyroRates_hover_skipped c inp h hskip d (update_hover_mem c inp h d he),
    (checkGyroRates_frame c inp h).1⟩

/-- C11 on an armed orchestrator in flight with throttle demand 1, a stabilizer that
adds 1 to the throttle and a hover controller that doubles it: in hover mode `runArmed`
gets throttle 4 (not 3); out of hover mode the hover controller is not called. -/
theorem C11_runArmed_demands_witness :
    Event.mixerRunArmed ⟨0, 0, 0, 4, 0⟩ ∈
        ((flyingHackflight true true).update orderCollaborators gyroOnlyCycle).2 ∧
      (∃ gyroRates, gyroOnlyCycle.gyrometer = some gyroRates ∧
        (⟨0, 0, 0, 4, 0⟩ : demands_t) =
          (flyingHackflight true true).specDemands orderCollaborators gyroRates) ∧
      ((flyingHackflight true false).hover = none ∨
        (flyingHackflight true false).receiver.inHoverMode = false) ∧
      (∀ d, Event.hoverModifyDemands d ∉
        ((flyingHackflight true false).update orderCollaborators gyroOnlyCycle).2) :=
  have hmem : Event.mixerRunArmed ⟨0, 0, 0, 4, 0⟩ ∈
      ((flyingHackflight true true).update orderCollaborators gyroOnlyCycle).2 := by
    simp [Hackflight.update, Hackflight.checkGyroRates, Hackflight.runHover,
      Hackflight.checkFailsafe, Hackflight.runMotors, Hackflight.checkQuaternion,
      Hackflight.checkReceiver, Hackflight.checkAccelerometer, Hackflight.checkBarometer,
      State.updateGyrometer, flyingHackflight, orderCollaborators, gyroOnlyCycle]
    norm_num
  ⟨hmem,
    (C11_runArmed_demands orderCollaborators gyroOnlyCycle (flyingHackflight true true)).1
      _ hmem,
    Or.inr rfl,
    (C11_runArmed_demands orderCollaborators gyroOnlyCycle
      (flyingHackflight true false)).2.2.1 (Or.inr rfl)⟩

/-- C12: in every update cycle, `Mixer::runDisarmed` is called exactly when the board
delivers a fresh orientation sample and `armed` is false after the gyro step (after its
failsafe evaluation, before the receiver check), and then exactly once; the serial relay
never calls it in a state with `armed = true`. -/
theorem C12_runDisarmed_when_disarmed (c : Collaborators S H) (inp : Inputs)
    (h : Hackflight S H) :
    (h.update c inp).2.filter Event.isRunDisarmed =
        (if inp.quaternion.isSome && !(h.checkGyroRates c inp).1.state.armed then
          [Event.mixerRunDisarmed]
        else []) ∧
      (Event.mixerRunDisarmed ∈ (h.update c inp).2 ↔
        inp.quaternion ≠ none ∧ (h.checkGyroRates c inp).1.state.armed = false) ∧
      (∀ x : Hackflight S H, x.state.armed = true →
        Event.mixerRunDisarmed ∉ x.doSerialComms inp) := by
  have hf : (h.update c inp).2.filter Event.isRunDisarmed =
      (if inp.quaternion.isSome && !(h.checkGyroRates c inp).1.state.armed then
        [Event.mixerRunDisarmed]
      else []) := by
    rw [update_runDisarmed, checkQuaternion_runDisarmed]
  refine ⟨hf, ?_, ?_⟩
  · have hmem : Event.mixerRunDisarmed ∈ (h.update c inp).2 ↔
        Event.mixerRunDisarmed ∈ (h.update c inp).2.filter Event.isRunDisarmed := by
      rw [List.mem_filter]
      exact ⟨fun hm => ⟨hm, rfl⟩, fun hm => hm.1⟩
    rw [hmem, hf]
    cases inp.quaternion <;> cases (h.checkGyroRates c inp).1.state.armed <;> simp
  · intro x hx hm
    have hm2 : Event.mixerRunDisarmed ∈ (x.doSerialComms inp).filter Event.isRunDisarmed :=
      List.mem_filter.mpr ⟨hm, rfl⟩
    rw [doSerialComms_runDisarmed, hx] at hm2
    simp at hm2

/-- C12 on a cycle whose only fresh sample is an orientation: a disarmed orchestrator
calls `runDisarmed` once, an armed one does not call it. -/
theorem C12_runDisarmed_when_disarmed_witness :
    ((sampleHackflight 0 0 0 false false 0).update sampleCollaborators yaw45Cycle).2.filter
        Event.isRunDisarmed = [Event.mixerRunDisarmed] ∧
      ((sampleHackflight 0 0 0 true false 0).update sampleCollaborators yaw45Cycle).2.filter
        Event.isRunDisarmed = [] ∧
      (sampleHackflight 0 0 0 true false 0).state.armed = true ∧
      Event.mixerRunDisarmed ∉ (sampleHackflight 0 0 0 true false 0).doSerialComms yaw45Cycle :=
  ⟨(C12_runDisarmed_when_disarmed sampleCollaborators yaw45Cycle
      (sampleHackflight 0 0 0 false false 0)).1.trans
      (by simp [Hackflight.checkGyroRates, yaw45Cycle, sampleHackflight]),
    (C12_runDisarmed_when_disarmed sampleCollaborators yaw45Cycle
      (sampleHackflight 0 0 0 true false 0)).1.trans
      (by simp [Hackflight.checkGyroRates, yaw45Cycle, sampleHackflight]),
    rfl,
    (C12_runDisarmed_when_disarmed sampleCollaborators yaw45Cycle
      (sampleHackflight 0 0 0 true false 0)).2.2 _ rfl⟩

/-- C13: in every update cycle in which the board delivers no fresh gyrometer sample,
the gyro step does nothing (the failsafe is not evaluated): `failsafe` keeps its value,
`runArmed` is not called, and `armed` at the end of the cycle is what the receiver
check's disarm and arm steps make of it, whatever `lostSignal()` answers. -/
theorem C13_no_gyro_no_failsafe (c : Collaborators S H) (inp : Inputs) (h : Hackflight S H)
    (hstale : inp.gyrometer = none) :
    h.checkGyroRates c inp = (h, []) ∧
      (h.update c inp).1.failsafe = h.failsafe ∧
      (∀ e ∈ (h.update c inp).2, e.isRunArmed = false) ∧
      (h.update c inp).1.state.armed =
        (match inp.getDemands with
        | none => h.state.armed
        | some rx =>
          (h.state.armed && !rx.disarming) ||
            (rx.arming && !h.failsafe
              && (h.checkQuaternion c inp).1.safeAngle c Axis.AXIS_ROLL
              && (h.checkQuaternion c inp).1.safeAngle c Axis.AXIS_PITCH)) := by
  have hg := checkGyroRates_stale c inp h hstale
  have hq := checkQuaternion_frame c inp h
  have hfl := update_flags c inp h
  rw [hg] at hfl
  refine ⟨hg, ?_, ?_, ?_⟩
  · rw [hfl.2.1, checkReceiver_failsafe, hq.2.1]
  · apply update_no_runArmed_of_gyro
    intro e he
    rw [hg] at he
    simp at he
  · rw [hfl.1]
    cases hrx : inp.getDemands with
    | none => rw [checkReceiver_stale c inp _ hrx, hq.1]
    | some rx => rw [checkReceiver_armed c inp _ rx hrx, hq.1, hq.2.1]

/-- C13 on an armed orchestrator in a cycle without fresh samples in which the receiver
reports lost signal: it is still armed, not in failsafe, and `runArmed` is not called. -/
theorem C13_no_gyro_no_failsafe_witness :
    lostSignalNoGyroCycle.gyrometer = none ∧
      lostSignalNoGyroCycle.lostSignal = true ∧
      (sampleHackflight 0 0 0 true false 0).state.armed = true ∧
      ((sampleHackflight 0 0 0 true false 0).update sampleCollaborators
        lostSignalNoGyroCycle).1.failsafe = false ∧
      (∀ e ∈ ((sampleHackflight 0 0 0 true false 0).update sampleCollaborators
        lostSignalNoGyroCycle).2, e.isRunArmed = false) ∧
      ((sampleHackflight 0 0 0 true false 0).update sampleCollaborators
        lostSignalNoGyroCycle).1.state.armed = true :=
  ⟨rfl, rfl, rfl,
    (C13_no_gyro_no_failsafe sampleCollaborators lostSignalNoGyroCycle
      (sampleHackflight 0 0 0 true false 0) rfl).2.1,
    (C13_no_gyro_no_failsafe sampleCollaborators lostSignalNoGyroCycle
      (sampleHackflight 0 0 0 true false 0) rfl).2.2.1,
    (C13_no_gyro_no_failsafe sampleCollaborators lostSignalNoGyroCycle
      (sampleHackflight 0 0 0 true false 0) rfl).2.2.2⟩

end hf
